import Mathlib

/-!
# Session authenticator and service bootstrap of the node

Shallow embedding of

* `services/openvpn/service/auth_validator.go` (`Validator.Validate`, `Validator.Cleanup`);
* `cmd/di_desktop.go` (`bootstrapServiceWireguard`, `bootstrapServiceOpenvpn`,
  `bootstrapServiceNoop`, `bootstrapAccountantPromiseSettler`).

Go values of type `error` are `Option Error` (`nil` is `none`).  Stateful code is written in
state-passing style and every call to a collaborator is appended to a call log, so that
statements such as "is called exactly once" or "is never called" are statements about that log.
-/

namespace AuthValidator

/-- Go `error` values (the message); the `nil` error is `Option.none`. -/
abbrev Error := String

/-- The type `session.ID`: a string type, `session.ID(s)` is a conversion without effect. -/
abbrev ID := String

/-- The type `identity.Identity`, compared with `==` in `Validate`. -/
structure Identity where
  Address : String
deriving DecidableEq, Repr

/-- The fields of `session.Session` that `Validate` reads. -/
structure Session where
  ID : ID
  ConsumerID : Identity
deriving DecidableEq, Repr

/-- The type `identity.Signature`. -/
structure Signature where
  Bytes : List UInt8
deriving DecidableEq, Repr

/-- The conversion `[]byte(s)` of a Go string: its UTF-8 bytes. -/
def bytesOf (s : String) : List UInt8 :=
  s.data.flatMap String.utf8EncodeChar

/-- Package-level names used by `Validate` and defined in other packages: the constant
`openvpn.AuthSignaturePrefix` and the function `identity.SignatureBase64`. -/
structure Imports where
  AuthSignaturePrefix : String
  SignatureBase64 : String → Signature

/-- The methods of `*clientMap` that the validator calls, over a state `M` of the map.
`FindClientSession` returns the Go triple `(session, found, err)` and only reads the map;
`UpdateClientSession` is called as a statement (no result is used);
`RemoveSession` returns an `error`. -/
structure ClientMapOps (M : Type) where
  FindClientSession : M → Int → ID → Session × Bool × Option Error
  UpdateClientSession : M → Int → ID → M
  RemoveSession : M → ID → M × Option Error

/-- The interface `identity.Extractor`. -/
structure Extractor where
  Extract : List UInt8 → Signature → Except Error Identity

/-- The struct `Validator`; the state pointed to by `clientMap` is passed separately. -/
structure Validator (M : Type) where
  clientMap : ClientMapOps M
  identityExtractor : Extractor

/-- Calls made by the validator on its collaborators. -/
inductive Call where
  | FindClientSession (clientID : Int) (id : ID)
  | UpdateClientSession (clientID : Int) (id : ID)
  | RemoveSession (id : ID)
  | Extract (message : List UInt8) (signature : Signature)
deriving DecidableEq, Repr

/-- Is the call a write to the client session map through `UpdateClientSession`? -/
def Call.isUpdate : Call → Bool
  | .UpdateClientSession _ _ => true
  | _ => false

/-- Is the call a call of the identity extractor? -/
def Call.isExtract : Call → Bool
  | .Extract _ _ => true
  | _ => false

/-- What a run of `Validate` yields: the Go result pair `(ok, err)`, the client session map
after the call and the calls made, in order. -/
structure ValidateResult (M : Type) where
  ok : Bool
  err : Option Error
  clientMap : M
  calls : List Call

/-- NewValidator return Validator instance. -/
def NewValidator {M : Type} (clientMap : ClientMapOps M) (extractor : Extractor) : Validator M :=
  { clientMap := clientMap, identityExtractor := extractor }

/-- The method `Validator.Validate` (auth_validator.go, lines 42-60). -/
def Validator.Validate {M : Type} (im : Imports) (v : Validator M) (m : M)
    (clientID : Int) (sessionString signatureString : String) : ValidateResult M :=
  let sessionID : ID := sessionString
  match v.clientMap.FindClientSession m clientID sessionID with
  | (currentSession, found, err) =>
    let c1 := [Call.FindClientSession clientID sessionID]
    match err with
    | some e => { ok := false, err := some e, clientMap := m, calls := c1 }
    | none =>
      let m1 := if !found then v.clientMap.UpdateClientSession m clientID sessionID else m
      let c2 := if !found then c1 ++ [Call.UpdateClientSession clientID sessionID] else c1
      let signature := im.SignatureBase64 signatureString
      let message := bytesOf (im.AuthSignaturePrefix ++ sessionString)
      let c3 := c2 ++ [Call.Extract message signature]
      match v.identityExtractor.Extract message signature with
      | .error e => { ok := false, err := some e, clientMap := m1, calls := c3 }
      | .ok extractedIdentity =>
        { ok := decide (currentSession.ConsumerID = extractedIdentity), err := none,
          clientMap := m1, calls := c3 }

/-- What a run of `Cleanup` yields: the returned `error`, the map after the call, the calls. -/
structure CleanupResult (M : Type) where
  err : Option Error
  clientMap : M
  calls : List Call

/-- The method `Validator.Cleanup` (auth_validator.go, lines 63-67). -/
def Validator.Cleanup {M : Type} (v : Validator M) (m : M) (sessionString : String) :
    CleanupResult M :=
  let sessionID : ID := sessionString
  match v.clientMap.RemoveSession m sessionID with
  | (m1, err) => { err := err, clientMap := m1, calls := [Call.RemoveSession sessionID] }

/-! ### The client session map, from the specification -/

/-- Modelled from the spec: the type `clientMap` of package services/openvpn/service, whose
declaration is not among the sources.  Section 3: the map holds `ClientSessionEntry` tuples
`(clientHandle, sessionID)`, keyed by clientHandle, one entry per handle; the sessions
themselves live in the session storage. -/
structure clientMap where
  sessions : List Session
  entries : List (Int × ID)
deriving DecidableEq, Repr

/-- Modelled from the spec: the signal `SessionNotFound` of section 4.2. -/
def SessionNotFound : Error := "SessionNotFound"

/-- Modelled from the spec: the session lookup by ID used by `FindClientSession`; when the
storage holds no session for the ID the result carries the ID and no consumer. -/
def clientMap.lookup (cm : clientMap) (id : ID) : Session :=
  (cm.sessions.find? (fun s => decide (s.ID = id))).getD { ID := id, ConsumerID := ⟨""⟩ }

/-- Modelled from the spec: `FindClientSession(clientHandle, sessionID)` of section 4.2,
"looks up the session by ID; found=false is not an error, it signals first login attempt
for this transport connection". -/
def clientMap.FindClientSession (cm : clientMap) (clientID : Int) (id : ID) :
    Session × Bool × Option Error :=
  (cm.lookup id, decide ((clientID, id) ∈ cm.entries), none)

/-- Modelled from the spec: `UpdateClientSession(clientHandle, sessionID)` of section 4.2,
"idempotently records the mapping; safe to call redundantly" (one entry per handle). -/
def clientMap.UpdateClientSession (cm : clientMap) (clientID : Int) (id : ID) : clientMap :=
  { cm with entries := (clientID, id) :: cm.entries.filter (fun e => decide (e.1 ≠ clientID)) }

/-- Modelled from the spec: `RemoveSession(sessionID)` of section 4.2, "deletes the mapping
and the underlying session by ID; signals SessionNotFound if absent". -/
def clientMap.RemoveSession (cm : clientMap) (id : ID) : clientMap × Option Error :=
  ({ sessions := cm.sessions.filter (fun s => decide (s.ID ≠ id)),
     entries := cm.entries.filter (fun e => decide (e.2 ≠ id)) },
   if cm.sessions.any (fun s => decide (s.ID = id)) then none else some SessionNotFound)

/-- The method table of the specification's client session map. -/
def specClientMap : ClientMapOps clientMap where
  FindClientSession := clientMap.FindClientSession
  UpdateClientSession := clientMap.UpdateClientSession
  RemoveSession := clientMap.RemoveSession

/-- An extractor for examples: the first signature byte names the signer (`c`, byte 99, is
the consumer), an empty signature is rejected. -/
def sampleExtractor : Extractor where
  Extract := fun _ sig =>
    match sig.Bytes with
    | [] => .error "invalid signature"
    | b :: _ => .ok ⟨if b = 99 then "0xconsumer" else "0xother"⟩

/-- Package-level names for examples. -/
def sampleImports : Imports where
  AuthSignaturePrefix := "MystVpnSessionId:"
  SignatureBase64 := fun s => ⟨bytesOf s⟩

/-- A sample validator over the specification's client session map. -/
def sampleValidator : Validator clientMap :=
  NewValidator specClientMap sampleExtractor

/-- A client session map with one stored session and no recorded entry. -/
def sampleMap : clientMap :=
  { sessions := [{ ID := "s1", ConsumerID := ⟨"0xconsumer"⟩ }], entries := [] }

/-- An extractor for examples that accepts every signature and yields the empty identity. -/
def sampleEmptyExtractor : Extractor where
  Extract := fun _ _ => .ok ⟨""⟩

/-- A client session map for examples whose lookup fails: `FindClientSession` returns the
zero session, `found = false` and an error, whatever is asked. -/
def sampleErrorClientMap : ClientMapOps Unit where
  FindClientSession := fun _ _ _ =>
    ({ ID := "", ConsumerID := ⟨""⟩ }, false, some "lookup failed")
  UpdateClientSession := fun m _ _ => m
  RemoveSession := fun m _ => (m, none)

/-- A client session map that holds no session and no entry. -/
def sampleEmptyMap : clientMap :=
  { sessions := [], entries := [] }

/-- The calls of a run of `Validate` whose lookup returned no error, by the `found` flag:
the lookup, the registration when `found` is false, the extraction. -/
def callsAfterLookup (im : Imports) (clientID : Int) (sessionString signatureString : String)
    (found : Bool) : List Call :=
  (if !found then
      [Call.FindClientSession clientID sessionString,
        Call.UpdateClientSession clientID sessionString]
    else [Call.FindClientSession clientID sessionString]) ++
    [Call.Extract (bytesOf (im.AuthSignaturePrefix ++ sessionString))
      (im.SignatureBase64 signatureString)]

end AuthValidator

namespace Cmd

/-- Go `error` values (the message); the `nil` error is `Option.none`. -/
abbrev Error := String

/-- Identity of a heap object: what two interface values holding pointers share exactly when
they are the same object. -/
abbrev Ref := Nat

/-- A `float64` carried by its bit pattern; the bootstrap code only passes it on. -/
abbrev Float64 := Nat

/-- The type `common.Address`. -/
abbrev Address := List UInt8

/-- The location a resolver detects; the factories read `Country` and pass the value on. -/
structure Location where
  Country : String
  Detail : String
deriving DecidableEq, Repr

/-- The type `port.Range`. -/
structure Range where
  Start : Int
  End : Int
deriving DecidableEq, Repr

/-- The service definition inside a proposal. -/
structure ServiceDefinition where
  Location : Location
  Protocol : String
deriving DecidableEq, Repr

/-- The type `market.ServiceProposal`; `market.ServiceProposal{}` is `ServiceProposal.zero`. -/
structure ServiceProposal where
  ServiceType : String
  ServiceDefinition : Option ServiceDefinition
deriving DecidableEq, Repr

/-- The composite literal `market.ServiceProposal{}`. -/
def ServiceProposal.zero : ServiceProposal :=
  { ServiceType := "", ServiceDefinition := none }

/-- A value of interface type `traversal.NATPinger`: the object it holds and whether that
object is a no-op pinger. -/
structure NATPinger where
  ref : Ref
  noop : Bool
deriving DecidableEq, Repr

/-- What a port supplier hands out: ports of the dynamic range, one fixed port, or the ports
of a fixed range. -/
inductive PoolKind where
  | dynamic
  | fixed (p : Int)
  | fixedRange (r : Range)
deriving DecidableEq, Repr

/-- A value of interface type `port.ServicePortSupplier`: the object and what it is bound to. -/
structure ServicePortSupplier where
  ref : Ref
  kind : PoolKind
deriving DecidableEq, Repr

/-- The type `wireguard_service.Options`; `Ports` is a `*port.Range`. -/
structure WireguardOptions where
  Ports : Option Range
  Subnet : String
deriving DecidableEq, Repr

/-- The type `openvpn_service.Options`. -/
structure OpenvpnOptions where
  Protocol : String
  Port : Int
deriving DecidableEq, Repr

/-- A value of interface type `service.Options`, by its dynamic type. -/
inductive ServiceOptions where
  | wireguard (o : WireguardOptions)
  | openvpn (o : OpenvpnOptions)
  | other (typeName : String)
deriving DecidableEq, Repr

/-- The field `Openvpn` of `node.Options`: `checkResult` is what its `Check()` returns. -/
structure OptionsOpenvpn where
  BinaryPath : String
  checkResult : Option Error
deriving DecidableEq, Repr

/-- The field `Accountant` of `node.Options`. -/
structure OptionsAccountant where
  AccountantID : String
deriving DecidableEq, Repr

/-- The field `Payments` of `node.Options`. -/
structure OptionsPayments where
  AccountantPromiseSettlingThreshold : Float64
  SettlementTimeout : Int
deriving DecidableEq, Repr

/-- The fields of `node.Options` read by the bootstrap functions below. -/
structure NodeOptions where
  MobileConsumer : Bool
  Openvpn : OptionsOpenvpn
  Accountant : OptionsAccountant
  Payments : OptionsPayments
deriving DecidableEq, Repr

/-- Calls made on collaborators outside `di_desktop.go`. -/
inductive ExtCall where
  | DetectLocation (resolver : Ref)
  | OpenvpnCheck
  | NewPool (pool : Ref)
  | NewPoolFixed (pool : Ref) (p : Int)
  | NewFixedRangePool (pool : Ref) (r : Range)
  | NewNoopPinger (pinger : Ref)
  | NewManager (serviceType : String) (manager : Ref)
  | Register (serviceType : String)
  | NewAccountantPromiseSettler (settler : Ref)
  | Subscribe (settler : Ref)
deriving DecidableEq, Repr

/-- The surroundings of the bootstrap code: the next free object identity, what the location
resolver answers at this moment, what `Subscribe()` of a real promise settler answers, and
the log of calls made so far. -/
structure World where
  nextRef : Ref
  location : Except Error Location
  settlerSubscribe : Option Error
  calls : List ExtCall

/-- Append a call to the log. -/
def World.log (w : World) (c : ExtCall) : World :=
  { w with calls := w.calls ++ [c] }

/-- Allocate a new object: its identity is the next free one. -/
def World.alloc (w : World) : Ref × World :=
  (w.nextRef, { w with nextRef := w.nextRef + 1 })

/-- The calls logged between the world `w` and a later world `w1`. -/
def World.callsSince (w1 w : World) : List ExtCall :=
  w1.calls.drop w.calls.length

/-- Pure package-level functions called by the bootstrap code and defined in other
packages: `common.HexToAddress`, `(*port.Range).IsSpecified`,
`wireguard_service.GetProposal`, `openvpn_discovery.NewServiceProposalWithLocation` and
`service_noop.GetProposal`. -/
structure Pkg where
  HexToAddress : String → Address
  IsSpecified : Option Range → Bool
  wireguardGetProposal : Location → ServiceProposal
  NewServiceProposalWithLocation : Location → String → ServiceProposal
  noopGetProposal : Location → ServiceProposal

/-- The struct `pingpong.AccountantPromiseSettlerConfig`. -/
structure AccountantPromiseSettlerConfig where
  AccountantAddress : Address
  Threshold : Float64
  MaxWaitForSettlement : Int
deriving DecidableEq, Repr

/-- The real settlement engine, by the arguments it was constructed with. -/
structure RealSettler where
  ref : Ref
  eventBus : Ref
  transactor : Ref
  promiseStorage : Ref
  bcHelper : Ref
  identityRegistry : Ref
  keystore : Ref
  config : AccountantPromiseSettlerConfig
deriving DecidableEq, Repr

/-- A value of the interface type of `di.AccountantPromiseSettler`:
`&pingpong_noop.NoopAccountantPromiseSettler{}` or a real settler. -/
inductive AccountantPromiseSettler where
  | noop
  | real (s : RealSettler)
deriving DecidableEq, Repr

/-- The fields of `Dependencies` used by the bootstrap functions below; collaborators that
are only passed on are held by identity.  The field `ServiceRegistry` is the separate type
`Registry`. -/
structure Dependencies where
  LocationResolver : Ref
  IPResolver : Ref
  NATService : Ref
  NATPinger : NATPinger
  NATTracker : Ref
  EventBus : Ref
  PortMapper : Ref
  ServiceFirewall : Ref
  ServiceSessionStorage : Ref
  Transactor : Ref
  AccountantPromiseStorage : Ref
  BCHelper : Ref
  IdentityRegistry : Ref
  Keystore : Ref
  AccountantPromiseSettler : Option AccountantPromiseSettler
deriving DecidableEq, Repr

/-- The WireGuard service manager, by the arguments of `wireguard_service.NewManager`. -/
structure WireguardManager where
  ref : Ref
  ipResolver : Ref
  country : String
  natService : Ref
  natPinger : NATPinger
  natTracker : Ref
  eventBus : Ref
  options : WireguardOptions
  portPool : ServicePortSupplier
  portMapper : Ref
  serviceFirewall : Ref
deriving DecidableEq, Repr

/-- The OpenVPN service manager, by the arguments of `openvpn_service.NewManager`. -/
structure OpenvpnManager where
  ref : Ref
  nodeOptions : NodeOptions
  transportOptions : OpenvpnOptions
  country : String
  ipResolver : Ref
  sessionStorage : Ref
  natService : Ref
  natPinger : NATPinger
  natTracker : Ref
  portPool : ServicePortSupplier
  eventBus : Ref
  portMapper : Ref
  serviceFirewall : Ref
deriving DecidableEq, Repr

/-- A non-nil value of interface type `service.Service`, as built by a factory. -/
inductive Service where
  | wireguard (m : WireguardManager)
  | openvpn (m : OpenvpnManager)
  | noop (ref : Ref)
deriving DecidableEq, Repr

/-- The NAT pinger a service manager was built with (the noop manager takes none). -/
def Service.natPinger : Service → Option NATPinger
  | .wireguard m => some m.natPinger
  | .openvpn m => some m.natPinger
  | .noop _ => none

/-- The port supplier a service manager was built with (the noop manager takes none). -/
def Service.portPool : Service → Option ServicePortSupplier
  | .wireguard m => some m.portPool
  | .openvpn m => some m.portPool
  | .noop _ => none

/-- How a factory invocation ends: with a run-time panic (a failed type assertion or a nil
dereference) or by returning the Go triple `(service, proposal, err)`. -/
inductive FactoryResult where
  | panic
  | ret (svc : Option Service) (proposal : ServiceProposal) (err : Option Error)
deriving DecidableEq, Repr

/-- The service of a returned triple, when there is one. -/
def FactoryResult.service : FactoryResult → Option Service
  | .ret svc _ _ => svc
  | .panic => none

/-- The error of a returned triple, when there is one. -/
def FactoryResult.err : FactoryResult → Option Error
  | .ret _ _ err => err
  | .panic => none

/-- The proposal of a returned triple, when there is one. -/
def FactoryResult.proposal : FactoryResult → Option ServiceProposal
  | .ret _ proposal _ => some proposal
  | .panic => none

/-- The country a service manager was built with (the noop manager takes none). -/
def Service.country : Service → Option String
  | .wireguard m => some m.country
  | .openvpn m => some m.country
  | .noop _ => none

/-- Is the call a call of `DetectLocation()`? -/
def ExtCall.isDetectLocation : ExtCall → Bool
  | .DetectLocation _ => true
  | _ => false

/-- Is the call the construction of a service manager? -/
def ExtCall.isNewManager : ExtCall → Bool
  | .NewManager _ _ => true
  | _ => false

/-- The world after the node's location, as the resolver would detect it, has changed. -/
def World.setLocation (w : World) (l : Except Error Location) : World :=
  { w with location := l }

/-! ### Collaborators of the bootstrap code -/

/-- The method `DetectLocation()` of `di.LocationResolver`: answers with the location the
world holds at the moment of the call. -/
def LocationResolver.DetectLocation (resolver : Ref) (w : World) :
    Except Error Location × World :=
  (w.location, w.log (.DetectLocation resolver))

/-- The method `Check()` of `nodeOptions.Openvpn`. -/
def OptionsOpenvpn.Check (o : OptionsOpenvpn) (w : World) : Option Error × World :=
  (o.checkResult, w.log .OpenvpnCheck)

/-- Modelled from the spec: the call `port.NewPool()` of package core/port, which is not
among the sources; it yields a "dynamic port pool" (section 4.1).  Which pool object a call
yields is not decided by the sources: section 4.1 speaks of a process-wide pool, the comment
at the two call sites ("TODO: Use global port pool once migrated to p2p") of a pool that is
not the global one.  The object returned here only gives the pool an identity; no statement
about the bootstrap code below rests on which object it is. -/
def port.NewPool (w : World) : ServicePortSupplier × World :=
  let (r, w1) := w.alloc
  ({ ref := r, kind := .dynamic }, w1.log (.NewPool r))

/-- Modelled from the spec: the constructor `port.NewPoolFixed(p)` of package core/port:
"a supplier bound to exactly that port" (section 4.1), a new object. -/
def port.NewPoolFixed (p : Int) (w : World) : ServicePortSupplier × World :=
  let (r, w1) := w.alloc
  ({ ref := r, kind := .fixed p }, w1.log (.NewPoolFixed r p))

/-- Modelled from the spec: the constructor `port.NewFixedRangePool(r)` of package
core/port: "a supplier bound to exactly that range" (section 4.1), a new object. -/
def port.NewFixedRangePool (rg : Range) (w : World) : ServicePortSupplier × World :=
  let (r, w1) := w.alloc
  ({ ref := r, kind := .fixedRange rg }, w1.log (.NewFixedRangePool r rg))

/-- Modelled from the spec: the constructor `traversal.NewNoopPinger()` of package
nat/traversal: "a no-op pinger" (section 4.1), a new object. -/
def traversal.NewNoopPinger (w : World) : NATPinger × World :=
  let (r, w1) := w.alloc
  ({ ref := r, noop := true }, w1.log (.NewNoopPinger r))

/-- The constant `wireguard.ServiceType`. -/
def wireguard.ServiceType : String := "wireguard"

/-- The constant `service_openvpn.ServiceType`. -/
def service_openvpn.ServiceType : String := "openvpn"

/-- The constant `service_noop.ServiceType`. -/
def service_noop.ServiceType : String := "noop"

/-- The constructor `wireguard_service.NewManager`: a new manager holding its arguments. -/
def wireguard_service.NewManager (ipResolver : Ref) (country : String) (natService : Ref)
    (natPinger : NATPinger) (natTracker eventBus : Ref) (options : WireguardOptions)
    (portPool : ServicePortSupplier) (portMapper serviceFirewall : Ref) (w : World) :
    Service × World :=
  let (r, w1) := w.alloc
  (.wireguard
    { ref := r, ipResolver := ipResolver, country := country, natService := natService,
      natPinger := natPinger, natTracker := natTracker, eventBus := eventBus,
      options := options, portPool := portPool, portMapper := portMapper,
      serviceFirewall := serviceFirewall },
    w1.log (.NewManager wireguard.ServiceType r))

/-- The constructor `openvpn_service.NewManager`: a new manager holding its arguments. -/
def openvpn_service.NewManager (nodeOptions : NodeOptions) (transportOptions : OpenvpnOptions)
    (country : String) (ipResolver sessionStorage natService : Ref) (natPinger : NATPinger)
    (natTracker : Ref) (portPool : ServicePortSupplier)
    (eventBus portMapper serviceFirewall : Ref) (w : World) : Service × World :=
  let (r, w1) := w.alloc
  (.openvpn
    { ref := r, nodeOptions := nodeOptions, transportOptions := transportOptions,
      country := country, ipResolver := ipResolver, sessionStorage := sessionStorage,
      natService := natService, natPinger := natPinger, natTracker := natTracker,
      portPool := portPool, eventBus := eventBus, portMapper := portMapper,
      serviceFirewall := serviceFirewall },
    w1.log (.NewManager service_openvpn.ServiceType r))

/-- The constructor `service_noop.NewManager()`. -/
def service_noop.NewManager (w : World) : Service × World :=
  let (r, w1) := w.alloc
  (.noop r, w1.log (.NewManager service_noop.ServiceType r))

/-- The constructor `pingpong.NewAccountantPromiseSettler`: a new settlement engine holding
its arguments. -/
def pingpong.NewAccountantPromiseSettler (eventBus transactor promiseStorage bcHelper
    identityRegistry keystore : Ref) (config : AccountantPromiseSettlerConfig) (w : World) :
    AccountantPromiseSettler × World :=
  let (r, w1) := w.alloc
  (.real
    { ref := r, eventBus := eventBus, transactor := transactor,
      promiseStorage := promiseStorage, bcHelper := bcHelper,
      identityRegistry := identityRegistry, keystore := keystore, config := config },
    w1.log (.NewAccountantPromiseSettler r))

/-- The method `Subscribe()` of a promise settler.  For the real engine the answer is the
world's; the no-op stand-in "succeeds trivially" (section 4.5). -/
def AccountantPromiseSettler.Subscribe (s : AccountantPromiseSettler) (w : World) :
    Option Error × World :=
  match s with
  | .real r => (w.settlerSubscribe, w.log (.Subscribe r.ref))
  | .noop => (none, w)

/-! ### The service factories (di_desktop.go, lines 79-175) -/

/-- A registered factory.  The Go closure captures the pointer `di`, so an invocation reads
the container as it is at call time: the container is an argument of the invocation. -/
abbrev ServiceFactory := Dependencies → ServiceOptions → World → FactoryResult × World

/-- The closure registered by `bootstrapServiceWireguard` (lines 82-115). -/
def wireguardFactory (pkg : Pkg) : ServiceFactory := fun di serviceOptions w =>
  match LocationResolver.DetectLocation di.LocationResolver w with
  | (.error err, w1) => (.ret none ServiceProposal.zero (some err), w1)
  | (.ok loc, w1) =>
    match serviceOptions with
    | .wireguard wgOptions =>
      let selected : Option ((ServicePortSupplier × NATPinger) × World) :=
        if pkg.IsSpecified wgOptions.Ports then
          match wgOptions.Ports with
          | none => none
          | some rg =>
            let (portPool, w2) := port.NewFixedRangePool rg w1
            let (natPinger, w3) := traversal.NewNoopPinger w2
            some ((portPool, natPinger), w3)
        else
          let (portPool, w2) := port.NewPool w1
          some ((portPool, di.NATPinger), w2)
      match selected with
      | none => (.panic, w1)
      | some ((portPool, natPinger), w3) =>
        let (svc, w4) := wireguard_service.NewManager di.IPResolver loc.Country di.NATService
          natPinger di.NATTracker di.EventBus wgOptions portPool di.PortMapper
          di.ServiceFirewall w3
        (.ret (some svc) (pkg.wireguardGetProposal loc) none, w4)
    | _ => (.panic, w1)

/-- The closure `createService` of `bootstrapServiceOpenvpn` (lines 120-159). -/
def openvpnFactory (pkg : Pkg) (nodeOptions : NodeOptions) : ServiceFactory :=
  fun di serviceOptions w =>
  match nodeOptions.Openvpn.Check w with
  | (some err, w0) => (.ret none ServiceProposal.zero (some err), w0)
  | (none, w0) =>
    match LocationResolver.DetectLocation di.LocationResolver w0 with
    | (.error err, w1) => (.ret none ServiceProposal.zero (some err), w1)
    | (.ok loc, w1) =>
      match serviceOptions with
      | .openvpn transportOptions =>
        let proposal := pkg.NewServiceProposalWithLocation loc transportOptions.Protocol
        let selected : (ServicePortSupplier × NATPinger) × World :=
          if transportOptions.Port ≠ 0 then
            let (portPool, w2) := port.NewPoolFixed transportOptions.Port w1
            let (natPinger, w3) := traversal.NewNoopPinger w2
            ((portPool, natPinger), w3)
          else
            let (portPool, w2) := port.NewPool w1
            ((portPool, di.NATPinger), w2)
        match selected with
        | ((portPool, natPinger), w3) =>
          let (manager, w4) := openvpn_service.NewManager nodeOptions transportOptions
            loc.Country di.IPResolver di.ServiceSessionStorage di.NATService natPinger
            di.NATTracker portPool di.EventBus di.PortMapper di.ServiceFirewall w3
          (.ret (some manager) proposal none, w4)
      | _ => (.panic, w1)

/-- The closure registered by `bootstrapServiceNoop` (lines 166-173). -/
def noopFactory (pkg : Pkg) : ServiceFactory := fun di _serviceOptions w =>
  match LocationResolver.DetectLocation di.LocationResolver w with
  | (.error err, w1) => (.ret none ServiceProposal.zero (some err), w1)
  | (.ok loc, w1) =>
    let (svc, w2) := service_noop.NewManager w1
    (.ret (some svc) (pkg.noopGetProposal loc) none, w2)

/-- The registry `di.ServiceRegistry`: the factories registered, latest first. -/
structure Registry where
  factories : List (String × ServiceFactory)

/-- Modelled from the spec: `ServiceRegistry.Register(serviceType, factory)` (core/service,
section 4.7): "a service type is registered with a factory function", which is stored under
its type tag and not invoked. -/
def Registry.Register (reg : Registry) (serviceType : String) (factory : ServiceFactory)
    (w : World) : Registry × World :=
  ({ factories := (serviceType, factory) :: reg.factories }, w.log (.Register serviceType))

/-- Modelled from the spec: the factory the registry holds for a type tag, invoked "lazily,
once per start request" (section 4.7). -/
def Registry.factory (reg : Registry) (serviceType : String) : Option ServiceFactory :=
  (reg.factories.find? (fun e => e.1 == serviceType)).map Prod.snd

/-- The method `bootstrapServiceWireguard` (lines 79-117). -/
def bootstrapServiceWireguard (pkg : Pkg) (reg : Registry) (_nodeOptions : NodeOptions)
    (w : World) : Registry × World :=
  reg.Register wireguard.ServiceType (wireguardFactory pkg) w

/-- The method `bootstrapServiceOpenvpn` (lines 119-161). -/
def bootstrapServiceOpenvpn (pkg : Pkg) (reg : Registry) (nodeOptions : NodeOptions)
    (w : World) : Registry × World :=
  reg.Register service_openvpn.ServiceType (openvpnFactory pkg nodeOptions) w

/-- The method `bootstrapServiceNoop` (lines 163-175). -/
def bootstrapServiceNoop (pkg : Pkg) (reg : Registry) (_nodeOptions : NodeOptions)
    (w : World) : Registry × World :=
  reg.Register service_noop.ServiceType (noopFactory pkg) w

/-- The method `bootstrapAccountantPromiseSettler` (lines 193-213): the container after the
call and the returned `error`. -/
def bootstrapAccountantPromiseSettler (pkg : Pkg) (di : Dependencies)
    (nodeOptions : NodeOptions) (w : World) : (Dependencies × Option Error) × World :=
  if nodeOptions.MobileConsumer then
    (({ di with AccountantPromiseSettler := some .noop }, none), w)
  else
    let (settler, w1) := pingpong.NewAccountantPromiseSettler di.EventBus di.Transactor
      di.AccountantPromiseStorage di.BCHelper di.IdentityRegistry di.Keystore
      { AccountantAddress := pkg.HexToAddress nodeOptions.Accountant.AccountantID,
        Threshold := nodeOptions.Payments.AccountantPromiseSettlingThreshold,
        MaxWaitForSettlement := nodeOptions.Payments.SettlementTimeout } w
    let di1 := { di with AccountantPromiseSettler := some settler }
    match settler.Subscribe w1 with
    | (err, w2) => ((di1, err), w2)

/-! ### Sample values -/

/-- Sample package functions: a range is specified when it is non-nil and non-empty. -/
def samplePkg : Pkg where
  HexToAddress := fun s => AuthValidator.bytesOf s
  IsSpecified := fun r =>
    match r with
    | none => false
    | some rg => decide (rg.Start < rg.End)
  wireguardGetProposal := fun loc =>
    { ServiceType := "wireguard", ServiceDefinition := some ⟨loc, ""⟩ }
  NewServiceProposalWithLocation := fun loc protocol =>
    { ServiceType := "openvpn", ServiceDefinition := some ⟨loc, protocol⟩ }
  noopGetProposal := fun loc =>
    { ServiceType := "noop", ServiceDefinition := some ⟨loc, ""⟩ }

/-- A sample container: objects 1 to 14 are its collaborators, the node-wide pinger is the
object 4. -/
def sampleDi : Dependencies where
  LocationResolver := 1
  IPResolver := 2
  NATService := 3
  NATPinger := { ref := 4, noop := false }
  NATTracker := 5
  EventBus := 6
  PortMapper := 7
  ServiceFirewall := 8
  ServiceSessionStorage := 9
  Transactor := 10
  AccountantPromiseStorage := 11
  BCHelper := 12
  IdentityRegistry := 13
  Keystore := 14
  AccountantPromiseSettler := none

/-- A sample world: the next free object is 20, the node is located in Lithuania. -/
def sampleWorld : World where
  nextRef := 20
  location := .ok { Country := "LT", Detail := "Vilnius" }
  settlerSubscribe := none
  calls := []

/-- Sample node options of a provider node. -/
def sampleNodeOptions : NodeOptions where
  MobileConsumer := false
  Openvpn := { BinaryPath := "openvpn", checkResult := none }
  Accountant := { AccountantID := "0xacc" }
  Payments := { AccountantPromiseSettlingThreshold := 0, SettlementTimeout := 120 }

/-- The sample container with a node-wide pinger that is itself a no-op pinger. -/
def sampleNoopDi : Dependencies :=
  { sampleDi with NATPinger := { ref := 4, noop := true } }

/-- Sample node options whose `Openvpn.Check()` fails. -/
def sampleBrokenOptions : NodeOptions :=
  { sampleNodeOptions with
    Openvpn := { BinaryPath := "openvpn", checkResult := some "openvpn binary not found" } }

/-- A second sample location. -/
def sampleLocationDE : Location :=
  { Country := "DE", Detail := "Berlin" }

/-- The registry after the three registrations of `bootstrapServices` (lines 72-74), in
their order, starting from an empty registry on the sample world. -/
def sampleRegistered : Registry × World :=
  let r1 := bootstrapServiceOpenvpn samplePkg { factories := [] } sampleNodeOptions sampleWorld
  let r2 := bootstrapServiceNoop samplePkg r1.1 sampleNodeOptions r1.2
  bootstrapServiceWireguard samplePkg r2.1 sampleNodeOptions r2.2

/-- The sample node options in consumer-only mode. -/
def sampleConsumerOptions : NodeOptions :=
  { sampleNodeOptions with MobileConsumer := true }

/-- The sample world, with a promise settler whose `Subscribe()` fails. -/
def sampleFailingWorld : World :=
  { sampleWorld with settlerSubscribe := some "subscribe failed" }

end Cmd

/-! ## Theorems: the session authenticator -/

namespace AuthValidator

variable {M : Type}

/-- A run whose lookup returns an error stops there. -/
theorem Validate_eq_of_lookup_error (im : Imports) (v : Validator M) (m : M) (clientID : Int)
    (s sig : String) (cur : Session) (found : Bool) (e : Error)
    (hfind : v.clientMap.FindClientSession m clientID s = (cur, found, some e)) :
    v.Validate im m clientID s sig =
      { ok := false, err := some e, clientMap := m,
        calls := [Call.FindClientSession clientID s] } := by
  simp only [Validator.Validate, hfind]

/-- A run whose lookup succeeds and whose extraction fails. -/
theorem Validate_eq_of_extract_error (im : Imports) (v : Validator M) (m : M) (clientID : Int)
    (s sig : String) (cur : Session) (found : Bool) (e : Error)
    (hfind : v.clientMap.FindClientSession m clientID s = (cur, found, none))
    (hext : v.identityExtractor.Extract (bytesOf (im.AuthSignaturePrefix ++ s))
      (im.SignatureBase64 sig) = .error e) :
    v.Validate im m clientID s sig =
      { ok := false, err := some e,
        clientMap := if !found then v.clientMap.UpdateClientSession m clientID s else m,
        calls := callsAfterLookup im clientID s sig found } := by
  simp only [Validator.Validate, hfind, hext, callsAfterLookup]
  cases found <;> simp

/-- A run whose lookup and extraction both succeed. -/
theorem Validate_eq_of_extract_ok (im : Imports) (v : Validator M) (m : M) (clientID : Int)
    (s sig : String) (cur : Session) (found : Bool) (idn : Identity)
    (hfind : v.clientMap.FindClientSession m clientID s = (cur, found, none))
    (hext : v.identityExtractor.Extract (bytesOf (im.AuthSignaturePrefix ++ s))
      (im.SignatureBase64 sig) = .ok idn) :
    v.Validate im m clientID s sig =
      { ok := decide (cur.ConsumerID = idn), err := none,
        clientMap := if !found then v.clientMap.UpdateClientSession m clientID s else m,
        calls := callsAfterLookup im clientID s sig found } := by
  simp only [Validator.Validate, hfind, hext, callsAfterLookup]
  cases found <;> simp

/-- The calls and the map of a run are fixed by the lookup alone. -/
theorem Validate_calls_clientMap (im : Imports) (v : Validator M) (m : M) (clientID : Int)
    (s sig : String) (cur : Session) (found : Bool) (err : Option Error)
    (hfind : v.clientMap.FindClientSession m clientID s = (cur, found, err)) :
    (v.Validate im m clientID s sig).calls =
        (if err.isSome then [Call.FindClientSession clientID s]
         else callsAfterLookup im clientID s sig found) ∧
      (v.Validate im m clientID s sig).clientMap =
        (if err.isSome || found then m else v.clientMap.UpdateClientSession m clientID s) := by
  cases err with
  | some e => rw [Validate_eq_of_lookup_error im v m clientID s sig cur found e hfind]; simp
  | none =>
    cases hext : v.identityExtractor.Extract (bytesOf (im.AuthSignaturePrefix ++ s))
        (im.SignatureBase64 sig) with
    | error e =>
      rw [Validate_eq_of_extract_error im v m clientID s sig cur found e hfind hext]
      cases found <;> simp
    | ok idn =>
      rw [Validate_eq_of_extract_ok im v m clientID s sig cur found idn hfind hext]
      cases found <;> simp

/-- The update calls among the calls of a run whose lookup returned no error. -/
theorem callsAfterLookup_updates (im : Imports) (clientID : Int) (s sig : String)
    (found : Bool) :
    (callsAfterLookup im clientID s sig found).filter Call.isUpdate =
      if found then [] else [Call.UpdateClientSession clientID s] := by
  cases found <;> simp [callsAfterLookup, Call.isUpdate]

/-- Section 8 of the specification, first property, for the specification's map: a lookup
right after `UpdateClientSession` finds the pair, without error, with a session of that ID. -/
theorem specClientMap_find_after_update (cm : clientMap) (clientID : Int) (id : ID) :
    ∃ sess, specClientMap.FindClientSession
        (specClientMap.UpdateClientSession cm clientID id) clientID id = (sess, true, none) ∧
      sess.ID = id := by
  refine ⟨(clientMap.UpdateClientSession cm clientID id).lookup id, ?_, ?_⟩
  · simp [specClientMap, clientMap.FindClientSession, clientMap.UpdateClientSession]
  · simp only [clientMap.lookup, clientMap.UpdateClientSession]
    cases h : List.find? (fun s => decide (s.ID = id)) cm.sessions with
    | none => simp
    | some x =>
      have := List.find?_some h
      simpa using this

/-- Recording a pair twice is recording it once. -/
theorem specClientMap_update_idempotent (cm : clientMap) (clientID : Int) (id : ID) :
    specClientMap.UpdateClientSession (specClientMap.UpdateClientSession cm clientID id)
        clientID id = specClientMap.UpdateClientSession cm clientID id := by
  simp [specClientMap, clientMap.UpdateClientSession, List.filter_filter]

/-- Section 8, fourth property, for the specification's map: after `RemoveSession` no client
is found for the session. -/
theorem specClientMap_find_after_remove (cm : clientMap) (clientID : Int) (id : ID) :
    (specClientMap.FindClientSession (specClientMap.RemoveSession cm id).1 clientID id).2.1
      = false := by
  simp [specClientMap, clientMap.FindClientSession, clientMap.RemoveSession]

end AuthValidator

namespace AuthValidator

variable {M : Type}

/-- C1. When the client-map lookup returns no error and the identity extractor succeeds,
`Validate` returns `(ok, nil)`, and `ok` is true exactly when the extracted identity equals
the `ConsumerID` of the session the lookup returned for the session ID. -/
theorem Validate_ok_iff_identity_eq_consumer (im : Imports) (v : Validator M) (m : M)
    (clientID : Int) (s sig : String) (cur : Session) (found : Bool) (idn : Identity)
    (hfind : v.clientMap.FindClientSession m clientID s = (cur, found, none))
    (hext : v.identityExtractor.Extract (bytesOf (im.AuthSignaturePrefix ++ s))
      (im.SignatureBase64 sig) = .ok idn) :
    (v.Validate im m clientID s sig).err = none ∧
      ((v.Validate im m clientID s sig).ok = true ↔ idn = cur.ConsumerID) := by
  rw [Validate_eq_of_extract_ok im v m clientID s sig cur found idn hfind hext]
  simp [eq_comm]

/-- Witness for C1: a stored session of consumer `0xconsumer`, signed by that consumer. -/
theorem Validate_ok_iff_identity_eq_consumer_witness :
    (sampleValidator.Validate sampleImports sampleMap 7 "s1" "c").err = none ∧
      ((sampleValidator.Validate sampleImports sampleMap 7 "s1" "c").ok = true ↔
        (⟨"0xconsumer"⟩ : Identity) = (Session.mk "s1" ⟨"0xconsumer"⟩).ConsumerID) :=
  Validate_ok_iff_identity_eq_consumer sampleImports sampleValidator sampleMap 7 "s1" "c"
    ⟨"s1", ⟨"0xconsumer"⟩⟩ false ⟨"0xconsumer"⟩ (by decide) rfl

/-- C2, counterexample. The sample extractor fails on the message and the empty signature,
but the lookup fails first: `Validate` returns the lookup's error, not the extractor's, and
does not call the extractor. -/
theorem Validate_lookup_error_precedes_extractor :
    sampleExtractor.Extract (bytesOf (sampleImports.AuthSignaturePrefix ++ "s1"))
        (sampleImports.SignatureBase64 "") = .error "invalid signature" ∧
      ((NewValidator sampleErrorClientMap sampleExtractor).Validate sampleImports () 7 "s1"
        "").err = some "lookup failed" ∧
      ((NewValidator sampleErrorClientMap sampleExtractor).Validate sampleImports () 7 "s1"
        "").err ≠ some "invalid signature" ∧
      ((NewValidator sampleErrorClientMap sampleExtractor).Validate sampleImports () 7 "s1"
        "").calls = [Call.FindClientSession 7 "s1"] :=
  ⟨rfl, by decide, by decide, by decide⟩

/-- C2, amended. On every input on which the lookup returns no error and the identity
extractor fails on the message (`openvpn.AuthSignaturePrefix` followed by the session
string, as bytes) and the signature, `Validate` calls the extractor once, on exactly that
message and `identity.SignatureBase64` of the signature string, and returns `false` with
the extractor's error.  On an input on which the lookup returns an error, `Validate`
returns `false` with the lookup's error and does not call the extractor.  Whenever the
extractor is called, its message and signature are those. -/
theorem Validate_extractor_error_returned (im : Imports) (v : Validator M) (m : M)
    (clientID : Int) (s sig : String) :
    ((v.clientMap.FindClientSession m clientID s).2.2 = none →
        (v.Validate im m clientID s sig).calls.filter Call.isExtract =
            [Call.Extract (bytesOf (im.AuthSignaturePrefix ++ s)) (im.SignatureBase64 sig)] ∧
          ∀ e, v.identityExtractor.Extract (bytesOf (im.AuthSignaturePrefix ++ s))
              (im.SignatureBase64 sig) = .error e →
            (v.Validate im m clientID s sig).ok = false ∧
              (v.Validate im m clientID s sig).err = some e) ∧
      (∀ e0, (v.clientMap.FindClientSession m clientID s).2.2 = some e0 →
        (v.Validate im m clientID s sig).ok = false ∧
          (v.Validate im m clientID s sig).err = some e0 ∧
          (v.Validate im m clientID s sig).calls.filter Call.isExtract = []) ∧
      (∀ msg sg, Call.Extract msg sg ∈ (v.Validate im m clientID s sig).calls →
        msg = bytesOf (im.AuthSignaturePrefix ++ s) ∧ sg = im.SignatureBase64 sig) := by
  rcases hf : v.clientMap.FindClientSession m clientID s with ⟨cur, found, err⟩
  have hc := (Validate_calls_clientMap im v m clientID s sig cur found err hf).1
  refine ⟨?_, ?_, ?_⟩
  · intro herr
    obtain rfl : err = none := herr
    constructor
    · rw [hc]
      cases found <;> simp [callsAfterLookup, Call.isExtract]
    · intro e he
      rw [Validate_eq_of_extract_error im v m clientID s sig cur found e hf he]
      exact ⟨rfl, rfl⟩
  · intro e0 herr
    obtain rfl : err = some e0 := herr
    rw [Validate_eq_of_lookup_error im v m clientID s sig cur found e0 hf]
    simp [Call.isExtract]
  · intro msg sg hcall
    rw [hc] at hcall
    cases err with
    | some e0 => simp at hcall
    | none => cases found <;> simpa [callsAfterLookup] using hcall

/-- Witness for C2, amended: a lookup without error and an empty signature, which the
sample extractor rejects. -/
theorem Validate_extractor_error_returned_witness :
    (specClientMap.FindClientSession sampleMap 7 "s1").2.2 = none ∧
      (sampleValidator.Validate sampleImports sampleMap 7 "s1" "").calls.filter
          Call.isExtract = [Call.Extract (bytesOf ("MystVpnSessionId:" ++ "s1")) ⟨[]⟩] ∧
      (sampleValidator.Validate sampleImports sampleMap 7 "s1" "").ok = false ∧
      (sampleValidator.Validate sampleImports sampleMap 7 "s1" "").err =
        some "invalid signature" :=
  have h := (Validate_extractor_error_returned sampleImports sampleValidator sampleMap 7
    "s1" "").1 (by decide)
  ⟨by decide, h.1, h.2 "invalid signature" rfl⟩

/-- C3. `Validate` calls `UpdateClientSession(clientID, session.ID(sessionString))`, once and
with no other update call, exactly when the lookup returned no error and `found = false`,
and the map after the call is then the updated one; when the lookup returns `found = true`
or an error, `Validate` makes no update call and leaves the map as it was. -/
theorem Validate_registers_iff_first_touch (im : Imports) (v : Validator M) (m : M)
    (clientID : Int) (s sig : String) :
    (((v.Validate im m clientID s sig).calls.filter Call.isUpdate =
          [Call.UpdateClientSession clientID s]) ↔
        ((v.clientMap.FindClientSession m clientID s).2.2 = none ∧
          (v.clientMap.FindClientSession m clientID s).2.1 = false)) ∧
      (((v.clientMap.FindClientSession m clientID s).2.2 = none ∧
          (v.clientMap.FindClientSession m clientID s).2.1 = false) →
        (v.Validate im m clientID s sig).clientMap =
          v.clientMap.UpdateClientSession m clientID s) ∧
      (((v.clientMap.FindClientSession m clientID s).2.1 = true ∨
          (v.clientMap.FindClientSession m clientID s).2.2 ≠ none) →
        (v.Validate im m clientID s sig).calls.filter Call.isUpdate = [] ∧
          (v.Validate im m clientID s sig).clientMap = m) := by
  rcases hf : v.clientMap.FindClientSession m clientID s with ⟨cur, found, err⟩
  obtain ⟨hc, hm⟩ := Validate_calls_clientMap im v m clientID s sig cur found err hf
  rw [hc, hm]
  cases err with
  | some e => simp [Call.isUpdate]
  | none => cases found <;> simp [callsAfterLookup_updates]

/-- Witness for C3: a first login registers the pair, a second lookup finds it. -/
theorem Validate_registers_iff_first_touch_witness :
    (sampleValidator.Validate sampleImports sampleMap 7 "s1" "c").calls.filter Call.isUpdate =
        [Call.UpdateClientSession 7 "s1"] ∧
      (sampleValidator.Validate sampleImports sampleMap 7 "s1" "c").clientMap =
        specClientMap.UpdateClientSession sampleMap 7 "s1" :=
  ⟨(Validate_registers_iff_first_touch sampleImports sampleValidator sampleMap 7 "s1" "c").1.2
      (by decide),
    (Validate_registers_iff_first_touch sampleImports sampleValidator sampleMap 7 "s1" "c").2.1
      (by decide)⟩

end AuthValidator

namespace AuthValidator

variable {M : Type}

/-- C5, counterexample. A first login with a signature the extractor rejects, and one signed
by another identity, both end in authentication failure and both change the map: the pair
`(7, "s1")` is recorded. -/
theorem Validate_failure_changes_map :
    ((sampleValidator.Validate sampleImports sampleMap 7 "s1" "").err =
          some "invalid signature" ∧
        (sampleValidator.Validate sampleImports sampleMap 7 "s1" "").clientMap ≠ sampleMap) ∧
      ((sampleValidator.Validate sampleImports sampleMap 7 "s1" "x").ok = false ∧
        (sampleValidator.Validate sampleImports sampleMap 7 "s1" "x").err = none ∧
        (sampleValidator.Validate sampleImports sampleMap 7 "s1" "x").clientMap ≠
          sampleMap) := by
  decide

/-- C5, amended. A `Validate` call that ends in authentication failure (the extractor
returns an error, or the extracted identity differs from the session's `ConsumerID`) returns
no `true`, and changes the client session map only by the first-touch registration: the map
after the call is the map before it when the lookup returned `found = true`, and the map
after `UpdateClientSession(clientID, sessionID)` when it returned `found = false`. -/
theorem Validate_failure_map_frame (im : Imports) (v : Validator M) (m : M)
    (clientID : Int) (s sig : String) (cur : Session) (found : Bool)
    (hfind : v.clientMap.FindClientSession m clientID s = (cur, found, none))
    (hfail : (∃ e, v.identityExtractor.Extract (bytesOf (im.AuthSignaturePrefix ++ s))
          (im.SignatureBase64 sig) = .error e) ∨
      (∃ idn, v.identityExtractor.Extract (bytesOf (im.AuthSignaturePrefix ++ s))
          (im.SignatureBase64 sig) = .ok idn ∧ idn ≠ cur.ConsumerID)) :
    (v.Validate im m clientID s sig).ok = false ∧
      (found = true → (v.Validate im m clientID s sig).clientMap = m) ∧
      (found = false → (v.Validate im m clientID s sig).clientMap =
        v.clientMap.UpdateClientSession m clientID s) := by
  have hm := (Validate_calls_clientMap im v m clientID s sig cur found none hfind).2
  refine ⟨?_, ?_, ?_⟩
  · rcases hfail with ⟨e, he⟩ | ⟨idn, hi, hne⟩
    · rw [Validate_eq_of_extract_error im v m clientID s sig cur found e hfind he]
    · rw [Validate_eq_of_extract_ok im v m clientID s sig cur found idn hfind hi]
      simpa using fun h => hne h.symm
  · intro hfound; rw [hm, hfound]; simp
  · intro hfound; rw [hm, hfound]; simp

/-- Witness for C5, amended: a recorded pair and a rejected signature leave the map as it
was. -/
theorem Validate_failure_map_frame_witness :
    (sampleValidator.Validate sampleImports
        (specClientMap.UpdateClientSession sampleMap 7 "s1") 7 "s1" "").ok = false ∧
      (sampleValidator.Validate sampleImports
        (specClientMap.UpdateClientSession sampleMap 7 "s1") 7 "s1" "").clientMap =
          specClientMap.UpdateClientSession sampleMap 7 "s1" :=
  have h := Validate_failure_map_frame sampleImports sampleValidator
    (specClientMap.UpdateClientSession sampleMap 7 "s1") 7 "s1" ""
    ⟨"s1", ⟨"0xconsumer"⟩⟩ true (by decide) (Or.inl ⟨"invalid signature", rfl⟩)
  ⟨h.1, h.2.1 rfl⟩

/-- C6, counterexample. `Cleanup` of a session that the client session map does not hold
returns the `SessionNotFound` signal to its caller. -/
theorem Cleanup_returns_SessionNotFound :
    (sampleValidator.Cleanup { sessions := [], entries := [] } "s1").err =
      some SessionNotFound := by
  decide

/-- C6, amended. `Cleanup(sessionString)` makes the one call
`RemoveSession(session.ID(sessionString))` and returns its result unchanged: the map is the
one `RemoveSession` leaves and the returned error is the one `RemoveSession` returned, the
`SessionNotFound` signal included. -/
theorem Cleanup_returns_RemoveSession_result (v : Validator M) (m : M) (s : String) :
    (v.Cleanup m s).calls = [Call.RemoveSession s] ∧
      (v.Cleanup m s).clientMap = (v.clientMap.RemoveSession m s).1 ∧
      (v.Cleanup m s).err = (v.clientMap.RemoveSession m s).2 := by
  simp [Validator.Cleanup]

end AuthValidator

/-! ## Theorems: the service bootstrap -/

namespace Cmd

/-- The OpenVPN factory with a fixed port, when its checks pass. -/
theorem openvpnFactory_fixed (pkg : Pkg) (nodeOptions : NodeOptions) (di : Dependencies)
    (o : OpenvpnOptions) (w : World) (loc : Location)
    (hcheck : nodeOptions.Openvpn.checkResult = none) (hloc : w.location = .ok loc)
    (hport : o.Port ≠ 0) :
    openvpnFactory pkg nodeOptions di (.openvpn o) w =
      (.ret (some (.openvpn
          { ref := w.nextRef + 2, nodeOptions := nodeOptions, transportOptions := o,
            country := loc.Country, ipResolver := di.IPResolver,
            sessionStorage := di.ServiceSessionStorage, natService := di.NATService,
            natPinger := { ref := w.nextRef + 1, noop := true },
            natTracker := di.NATTracker,
            portPool := { ref := w.nextRef, kind := .fixed o.Port },
            eventBus := di.EventBus, portMapper := di.PortMapper,
            serviceFirewall := di.ServiceFirewall }))
        (pkg.NewServiceProposalWithLocation loc o.Protocol) none,
       { w with
          nextRef := w.nextRef + 3,
          calls := w.calls ++ [.OpenvpnCheck, .DetectLocation di.LocationResolver,
            .NewPoolFixed w.nextRef o.Port, .NewNoopPinger (w.nextRef + 1),
            .NewManager service_openvpn.ServiceType (w.nextRef + 2)] }) := by
  simp [openvpnFactory, OptionsOpenvpn.Check, LocationResolver.DetectLocation, hcheck, hloc,
    hport, port.NewPoolFixed, traversal.NewNoopPinger, openvpn_service.NewManager,
    World.alloc, World.log]

/-- The OpenVPN factory without a fixed port, when its checks pass. -/
theorem openvpnFactory_dynamic (pkg : Pkg) (nodeOptions : NodeOptions) (di : Dependencies)
    (o : OpenvpnOptions) (w : World) (loc : Location)
    (hcheck : nodeOptions.Openvpn.checkResult = none) (hloc : w.location = .ok loc)
    (hport : o.Port = 0) :
    openvpnFactory pkg nodeOptions di (.openvpn o) w =
      (.ret (some (.openvpn
          { ref := w.nextRef + 1, nodeOptions := nodeOptions, transportOptions := o,
            country := loc.Country, ipResolver := di.IPResolver,
            sessionStorage := di.ServiceSessionStorage, natService := di.NATService,
            natPinger := di.NATPinger,
            natTracker := di.NATTracker,
            portPool := { ref := w.nextRef, kind := .dynamic },
            eventBus := di.EventBus, portMapper := di.PortMapper,
            serviceFirewall := di.ServiceFirewall }))
        (pkg.NewServiceProposalWithLocation loc o.Protocol) none,
       { w with
          nextRef := w.nextRef + 2,
          calls := w.calls ++ [.OpenvpnCheck, .DetectLocation di.LocationResolver,
            .NewPool w.nextRef,
            .NewManager service_openvpn.ServiceType (w.nextRef + 1)] }) := by
  simp [openvpnFactory, OptionsOpenvpn.Check, LocationResolver.DetectLocation, hcheck, hloc,
    hport, port.NewPool, openvpn_service.NewManager, World.alloc, World.log]

/-- The OpenVPN factory builds a service only from OpenVPN options, after a passed check
and a detected location. -/
theorem openvpnFactory_service (pkg : Pkg) (nodeOptions : NodeOptions) (di : Dependencies)
    (opts : ServiceOptions) (w : World) (svc : Service)
    (hsvc : (openvpnFactory pkg nodeOptions di opts w).1.service = some svc) :
    nodeOptions.Openvpn.checkResult = none ∧ (∃ loc, w.location = .ok loc) ∧
      ∃ o, opts = .openvpn o := by
  cases hcheck : nodeOptions.Openvpn.checkResult with
  | some e =>
    simp [openvpnFactory, OptionsOpenvpn.Check, hcheck, FactoryResult.service] at hsvc
  | none =>
    cases hloc : w.location with
    | error e =>
      simp [openvpnFactory, OptionsOpenvpn.Check, LocationResolver.DetectLocation, hcheck,
        hloc, FactoryResult.service, World.log] at hsvc
    | ok loc =>
      cases opts with
      | openvpn o => exact ⟨rfl, ⟨loc, rfl⟩, ⟨o, rfl⟩⟩
      | wireguard o =>
        simp [openvpnFactory, OptionsOpenvpn.Check, LocationResolver.DetectLocation, hcheck,
          hloc, FactoryResult.service, World.log] at hsvc
      | other t =>
        simp [openvpnFactory, OptionsOpenvpn.Check, LocationResolver.DetectLocation, hcheck,
          hloc, FactoryResult.service, World.log] at hsvc

/-- The WireGuard factory with a fixed port range, when the location is detected. -/
theorem wireguardFactory_fixed (pkg : Pkg) (di : Dependencies) (o : WireguardOptions)
    (w : World) (loc : Location) (rg : Range) (hloc : w.location = .ok loc)
    (hspec : pkg.IsSpecified o.Ports = true) (hports : o.Ports = some rg) :
    wireguardFactory pkg di (.wireguard o) w =
      (.ret (some (.wireguard
          { ref := w.nextRef + 2, ipResolver := di.IPResolver, country := loc.Country,
            natService := di.NATService,
            natPinger := { ref := w.nextRef + 1, noop := true },
            natTracker := di.NATTracker, eventBus := di.EventBus, options := o,
            portPool := { ref := w.nextRef, kind := .fixedRange rg },
            portMapper := di.PortMapper, serviceFirewall := di.ServiceFirewall }))
        (pkg.wireguardGetProposal loc) none,
       { w with
          nextRef := w.nextRef + 3,
          calls := w.calls ++ [.DetectLocation di.LocationResolver,
            .NewFixedRangePool w.nextRef rg, .NewNoopPinger (w.nextRef + 1),
            .NewManager wireguard.ServiceType (w.nextRef + 2)] }) := by
  rw [hports] at hspec
  simp [wireguardFactory, LocationResolver.DetectLocation, hloc, hspec, hports,
    port.NewFixedRangePool, traversal.NewNoopPinger, wireguard_service.NewManager,
    World.alloc, World.log]

/-- The WireGuard factory without a fixed port range, when the location is detected. -/
theorem wireguardFactory_dynamic (pkg : Pkg) (di : Dependencies) (o : WireguardOptions)
    (w : World) (loc : Location) (hloc : w.location = .ok loc)
    (hspec : pkg.IsSpecified o.Ports = false) :
    wireguardFactory pkg di (.wireguard o) w =
      (.ret (some (.wireguard
          { ref := w.nextRef + 1, ipResolver := di.IPResolver, country := loc.Country,
            natService := di.NATService, natPinger := di.NATPinger,
            natTracker := di.NATTracker, eventBus := di.EventBus, options := o,
            portPool := { ref := w.nextRef, kind := .dynamic },
            portMapper := di.PortMapper, serviceFirewall := di.ServiceFirewall }))
        (pkg.wireguardGetProposal loc) none,
       { w with
          nextRef := w.nextRef + 2,
          calls := w.calls ++ [.DetectLocation di.LocationResolver, .NewPool w.nextRef,
            .NewManager wireguard.ServiceType (w.nextRef + 1)] }) := by
  simp [wireguardFactory, LocationResolver.DetectLocation, hloc, hspec, port.NewPool,
    wireguard_service.NewManager, World.alloc, World.log]

/-- The WireGuard factory builds a service only from WireGuard options, after a detected
location, and with a fixed range only when the range pointer is not nil. -/
theorem wireguardFactory_service (pkg : Pkg) (di : Dependencies) (opts : ServiceOptions)
    (w : World) (svc : Service)
    (hsvc : (wireguardFactory pkg di opts w).1.service = some svc) :
    (∃ loc, w.location = .ok loc) ∧
      ∃ o, opts = .wireguard o ∧ (pkg.IsSpecified o.Ports = true → ∃ rg, o.Ports = some rg) := by
  cases hloc : w.location with
  | error e =>
    simp [wireguardFactory, LocationResolver.DetectLocation, hloc, FactoryResult.service,
      World.log] at hsvc
  | ok loc =>
    cases opts with
    | wireguard o =>
      refine ⟨⟨loc, rfl⟩, o, rfl, ?_⟩
      intro hspec
      cases hports : o.Ports with
      | some rg => exact ⟨rg, rfl⟩
      | none =>
        rw [hports] at hspec
        simp [wireguardFactory, LocationResolver.DetectLocation, hloc, hspec, hports,
          FactoryResult.service, World.log] at hsvc
    | openvpn o =>
      simp [wireguardFactory, LocationResolver.DetectLocation, hloc, FactoryResult.service,
        World.log] at hsvc
    | other t =>
      simp [wireguardFactory, LocationResolver.DetectLocation, hloc, FactoryResult.service,
        World.log] at hsvc

/-- The calls logged since a world, for a later world that extends its log. -/
theorem callsSince_append (w : World) (n : Ref) (cs : List ExtCall) :
    World.callsSince { w with nextRef := n, calls := w.calls ++ cs } w = cs := by
  simp [World.callsSince]

end Cmd

namespace Cmd

/-- C7. When a factory builds a service manager from options with a fixed port (OpenVPN,
`Port != 0`) or a fixed range (WireGuard, `Ports.IsSpecified()`), the manager's port supplier
is the one `port.NewPoolFixed` / `port.NewFixedRangePool` built in that invocation, bound to
exactly that port or range, and its NAT pinger is the no-op pinger `traversal.NewNoopPinger`
built in that invocation: an object that did not exist before, hence not the node-wide
pinger `di.NATPinger`. -/
theorem fixed_port_supplier_and_noop_pinger :
    (∀ (pkg : Pkg) (nodeOptions : NodeOptions) (di : Dependencies) (o : OpenvpnOptions)
        (w : World) (svc : Service),
        (openvpnFactory pkg nodeOptions di (.openvpn o) w).1.service = some svc →
        o.Port ≠ 0 →
        ∃ pool pinger, svc.portPool = some pool ∧ pool.kind = .fixed o.Port ∧
          ExtCall.NewPoolFixed pool.ref o.Port ∈
            World.callsSince (openvpnFactory pkg nodeOptions di (.openvpn o) w).2 w ∧
          svc.natPinger = some pinger ∧ pinger.noop = true ∧ w.nextRef ≤ pinger.ref ∧
          ExtCall.NewNoopPinger pinger.ref ∈
            World.callsSince (openvpnFactory pkg nodeOptions di (.openvpn o) w).2 w ∧
          ((di.NATPinger.noop = false ∨ di.NATPinger.ref < w.nextRef) →
            pinger ≠ di.NATPinger)) ∧
      (∀ (pkg : Pkg) (di : Dependencies) (o : WireguardOptions) (w : World) (svc : Service),
        (wireguardFactory pkg di (.wireguard o) w).1.service = some svc →
        pkg.IsSpecified o.Ports = true →
        ∃ rg pool pinger, o.Ports = some rg ∧ svc.portPool = some pool ∧
          pool.kind = .fixedRange rg ∧
          ExtCall.NewFixedRangePool pool.ref rg ∈
            World.callsSince (wireguardFactory pkg di (.wireguard o) w).2 w ∧
          svc.natPinger = some pinger ∧ pinger.noop = true ∧ w.nextRef ≤ pinger.ref ∧
          ExtCall.NewNoopPinger pinger.ref ∈
            World.callsSince (wireguardFactory pkg di (.wireguard o) w).2 w ∧
          ((di.NATPinger.noop = false ∨ di.NATPinger.ref < w.nextRef) →
            pinger ≠ di.NATPinger)) := by
  constructor
  · intro pkg nodeOptions di o w svc hsvc hport
    obtain ⟨hcheck, ⟨loc, hloc⟩, -⟩ := openvpnFactory_service pkg nodeOptions di _ w svc hsvc
    rw [openvpnFactory_fixed pkg nodeOptions di o w loc hcheck hloc hport] at hsvc ⊢
    simp only [FactoryResult.service, Option.some.injEq] at hsvc
    subst hsvc
    refine ⟨{ ref := w.nextRef, kind := .fixed o.Port }, { ref := w.nextRef + 1, noop := true },
      rfl, rfl, ?_, rfl, rfl, Nat.le_succ _, ?_, ?_⟩
    · rw [callsSince_append]; simp
    · rw [callsSince_append]; simp
    · rintro (h | h) heq
      · rw [← heq] at h; simp at h
      · rw [← heq] at h; simp at h
  · intro pkg di o w svc hsvc hspec
    obtain ⟨⟨loc, hloc⟩, o', ho', hrg⟩ := wireguardFactory_service pkg di _ w svc hsvc
    obtain rfl : o = o' := by simpa using ho'
    obtain ⟨rg, hports⟩ := hrg hspec
    rw [wireguardFactory_fixed pkg di o w loc rg hloc hspec hports] at hsvc ⊢
    simp only [FactoryResult.service, Option.some.injEq] at hsvc
    subst hsvc
    refine ⟨rg, { ref := w.nextRef, kind := .fixedRange rg },
      { ref := w.nextRef + 1, noop := true }, hports, rfl, rfl, ?_, rfl, rfl, Nat.le_succ _,
      ?_, ?_⟩
    · rw [callsSince_append]; simp
    · rw [callsSince_append]; simp
    · rintro (h | h) heq
      · rw [← heq] at h; simp at h
      · rw [← heq] at h; simp at h

/-- Witness for C7: an OpenVPN service on port 1194 and a WireGuard service on the range
52820-52830, on the sample node. -/
theorem fixed_port_supplier_and_noop_pinger_witness :
    (∃ svc pool pinger,
        (openvpnFactory samplePkg sampleNodeOptions sampleDi (.openvpn ⟨"udp", 1194⟩)
          sampleWorld).1.service = some svc ∧
        svc.portPool = some pool ∧ pool.kind = .fixed 1194 ∧
        svc.natPinger = some pinger ∧ pinger.noop = true ∧ pinger ≠ sampleDi.NATPinger) ∧
      (∃ svc pool pinger,
        (wireguardFactory samplePkg sampleDi (.wireguard ⟨some ⟨52820, 52830⟩, ""⟩)
          sampleWorld).1.service = some svc ∧
        svc.portPool = some pool ∧ pool.kind = .fixedRange ⟨52820, 52830⟩ ∧
        svc.natPinger = some pinger ∧ pinger.noop = true ∧ pinger ≠ sampleDi.NATPinger) :=
  ⟨⟨_, (fixed_port_supplier_and_noop_pinger.1 samplePkg sampleNodeOptions sampleDi
      ⟨"udp", 1194⟩ sampleWorld _ rfl (by decide)).elim fun pool h => h.elim fun pinger h =>
        ⟨pool, pinger, rfl, h.1, h.2.1, h.2.2.2.1, h.2.2.2.2.1,
          h.2.2.2.2.2.2.2 (Or.inl rfl)⟩⟩,
    ⟨_, (fixed_port_supplier_and_noop_pinger.2 samplePkg sampleDi
      ⟨some ⟨52820, 52830⟩, ""⟩ sampleWorld _ rfl (by decide)).elim fun rg h =>
        h.elim fun pool h => h.elim fun pinger h =>
        ⟨pool, pinger, rfl, h.2.1,
          h.2.2.1.trans (congrArg PoolKind.fixedRange (Option.some.inj h.1).symm),
          h.2.2.2.2.1, h.2.2.2.2.2.1, h.2.2.2.2.2.2.2.2 (Or.inl rfl)⟩⟩⟩

/-- C8, counterexample. On a node whose node-wide pinger is itself a no-op pinger, an
OpenVPN and a WireGuard service without a fixed port or range receive that pinger: a no-op
pinger, although no fixed port or range was specified. -/
theorem noop_node_wide_pinger_handed_on :
    ((openvpnFactory samplePkg sampleNodeOptions sampleNoopDi (.openvpn ⟨"udp", 0⟩)
          sampleWorld).1.service.bind Service.natPinger = some ⟨4, true⟩ ∧
        ¬ ((∃ p, (openvpnFactory samplePkg sampleNodeOptions sampleNoopDi
              (.openvpn ⟨"udp", 0⟩) sampleWorld).1.service.bind Service.natPinger = some p ∧
            p.noop = true) ↔ (OpenvpnOptions.mk "udp" 0).Port ≠ 0)) ∧
      ((wireguardFactory samplePkg sampleNoopDi (.wireguard ⟨none, ""⟩)
          sampleWorld).1.service.bind Service.natPinger = some ⟨4, true⟩ ∧
        ¬ ((∃ p, (wireguardFactory samplePkg sampleNoopDi (.wireguard ⟨none, ""⟩)
              sampleWorld).1.service.bind Service.natPinger = some p ∧
            p.noop = true) ↔ samplePkg.IsSpecified (WireguardOptions.mk none "").Ports = true)) := by
  refine ⟨⟨by decide, fun h => ?_⟩, ⟨by decide, fun h => ?_⟩⟩
  · exact h.1 ⟨⟨4, true⟩, by decide, rfl⟩ rfl
  · exact absurd (h.1 ⟨⟨4, true⟩, by decide, rfl⟩) (by decide)

/-- C8, amended. When a factory builds a service manager from options without a fixed port
or range, the manager's NAT pinger is `di.NATPinger` itself.  For any node-wide pinger that
existed before the invocation, the manager's pinger is a no-op pinger built during the
invocation exactly when a fixed port or range was specified; and for a node-wide pinger
that is not itself a no-op pinger, the manager's pinger is a no-op pinger exactly in that
case. -/
theorem dynamic_port_gets_node_wide_pinger :
    (∀ (pkg : Pkg) (nodeOptions : NodeOptions) (di : Dependencies) (o : OpenvpnOptions)
        (w : World) (svc : Service),
        (openvpnFactory pkg nodeOptions di (.openvpn o) w).1.service = some svc →
        (o.Port = 0 → svc.natPinger = some di.NATPinger) ∧
          (di.NATPinger.noop = false →
            ((∃ p, svc.natPinger = some p ∧ p.noop = true) ↔ o.Port ≠ 0)) ∧
          (di.NATPinger.ref < w.nextRef →
            ((∃ p, svc.natPinger = some p ∧ p.noop = true ∧ w.nextRef ≤ p.ref) ↔
              o.Port ≠ 0))) ∧
      (∀ (pkg : Pkg) (di : Dependencies) (o : WireguardOptions) (w : World) (svc : Service),
        (wireguardFactory pkg di (.wireguard o) w).1.service = some svc →
        (pkg.IsSpecified o.Ports = false → svc.natPinger = some di.NATPinger) ∧
          (di.NATPinger.noop = false →
            ((∃ p, svc.natPinger = some p ∧ p.noop = true) ↔
              pkg.IsSpecified o.Ports = true)) ∧
          (di.NATPinger.ref < w.nextRef →
            ((∃ p, svc.natPinger = some p ∧ p.noop = true ∧ w.nextRef ≤ p.ref) ↔
              pkg.IsSpecified o.Ports = true))) := by
  constructor
  · intro pkg nodeOptions di o w svc hsvc
    obtain ⟨hcheck, ⟨loc, hloc⟩, -⟩ := openvpnFactory_service pkg nodeOptions di _ w svc hsvc
    by_cases hport : o.Port = 0
    · rw [openvpnFactory_dynamic pkg nodeOptions di o w loc hcheck hloc hport] at hsvc
      simp only [FactoryResult.service, Option.some.injEq] at hsvc
      subst hsvc
      refine ⟨fun _ => rfl, fun hreal => ?_, fun hold => ?_⟩
      · simp [Service.natPinger, hport, hreal]
      · simp only [Service.natPinger, Option.some.injEq, exists_eq_left', hport, ne_eq,
          not_true_eq_false, iff_false, not_and, not_le]
        exact fun _ => hold
    · rw [openvpnFactory_fixed pkg nodeOptions di o w loc hcheck hloc hport] at hsvc
      simp only [FactoryResult.service, Option.some.injEq] at hsvc
      subst hsvc
      refine ⟨fun h => absurd h hport, fun _ => ?_, fun _ => ?_⟩
      · simp [Service.natPinger, hport]
      · simp [Service.natPinger, hport]
  · intro pkg di o w svc hsvc
    obtain ⟨⟨loc, hloc⟩, o', ho', hrg⟩ := wireguardFactory_service pkg di _ w svc hsvc
    obtain rfl : o = o' := by simpa using ho'
    cases hspec : pkg.IsSpecified o.Ports with
    | false =>
      rw [wireguardFactory_dynamic pkg di o w loc hloc hspec] at hsvc
      simp only [FactoryResult.service, Option.some.injEq] at hsvc
      subst hsvc
      refine ⟨fun _ => rfl, fun hreal => ?_, fun hold => ?_⟩
      · simp [Service.natPinger, hreal]
      · simp only [Service.natPinger, Option.some.injEq, exists_eq_left', Bool.false_eq_true,
          iff_false, not_and, not_le]
        exact fun _ => hold
    | true =>
      obtain ⟨rg, hports⟩ := hrg hspec
      rw [wireguardFactory_fixed pkg di o w loc rg hloc hspec hports] at hsvc
      simp only [FactoryResult.service, Option.some.injEq] at hsvc
      subst hsvc
      refine ⟨fun h => by simp at h, fun _ => ?_, fun _ => ?_⟩
      · simp [Service.natPinger]
      · simp [Service.natPinger]

/-- Witness for C8, amended: an OpenVPN and a WireGuard service without fixed ports on the sample
node receive the node-wide pinger, the object 4. -/
theorem dynamic_port_gets_node_wide_pinger_witness :
    (∃ svc, (openvpnFactory samplePkg sampleNodeOptions sampleDi (.openvpn ⟨"udp", 0⟩)
          sampleWorld).1.service = some svc ∧
        svc.natPinger = some { ref := 4, noop := false }) ∧
      (∃ svc, (wireguardFactory samplePkg sampleDi (.wireguard ⟨none, ""⟩)
          sampleWorld).1.service = some svc ∧
        svc.natPinger = some { ref := 4, noop := false }) :=
  ⟨⟨_, rfl, (dynamic_port_gets_node_wide_pinger.1 samplePkg sampleNodeOptions sampleDi
      ⟨"udp", 0⟩ sampleWorld _ rfl).1 rfl⟩,
    ⟨_, rfl, (dynamic_port_gets_node_wide_pinger.2 samplePkg sampleDi ⟨none, ""⟩
      sampleWorld _ rfl).1 rfl⟩⟩

end Cmd

namespace Cmd

/-- C10. In the consumer-only mode (`nodeOptions.MobileConsumer` true)
`bootstrapAccountantPromiseSettler` installs the no-op settler, returns `nil` and leaves the
world as it was: no settlement engine is constructed and no `Subscribe` is called.  In every
other mode it constructs the real settler from the container's collaborators and the
configured address, threshold and timeout, installs it, calls its `Subscribe()` once and
returns exactly what that call returned. -/
theorem bootstrapAccountantPromiseSettler_modes (pkg : Pkg) (di : Dependencies)
    (nodeOptions : NodeOptions) (w : World) :
    (nodeOptions.MobileConsumer = true →
        bootstrapAccountantPromiseSettler pkg di nodeOptions w =
          (({ di with AccountantPromiseSettler := some .noop }, none), w)) ∧
      (nodeOptions.MobileConsumer = false →
        ∃ s : RealSettler,
          s = { ref := w.nextRef, eventBus := di.EventBus, transactor := di.Transactor,
                promiseStorage := di.AccountantPromiseStorage, bcHelper := di.BCHelper,
                identityRegistry := di.IdentityRegistry, keystore := di.Keystore,
                config :=
                  { AccountantAddress := pkg.HexToAddress nodeOptions.Accountant.AccountantID,
                    Threshold := nodeOptions.Payments.AccountantPromiseSettlingThreshold,
                    MaxWaitForSettlement := nodeOptions.Payments.SettlementTimeout } } ∧
          (bootstrapAccountantPromiseSettler pkg di nodeOptions w).1.1 =
            { di with AccountantPromiseSettler := some (.real s) } ∧
          (bootstrapAccountantPromiseSettler pkg di nodeOptions w).1.2 =
            ((AccountantPromiseSettler.real s).Subscribe
              (pingpong.NewAccountantPromiseSettler di.EventBus di.Transactor
                di.AccountantPromiseStorage di.BCHelper di.IdentityRegistry di.Keystore
                s.config w).2).1 ∧
          (bootstrapAccountantPromiseSettler pkg di nodeOptions w).1.2 = w.settlerSubscribe ∧
          World.callsSince (bootstrapAccountantPromiseSettler pkg di nodeOptions w).2 w =
            [.NewAccountantPromiseSettler s.ref, .Subscribe s.ref]) := by
  constructor
  · intro h
    simp [bootstrapAccountantPromiseSettler, h]
  · intro h
    refine ⟨_, rfl, ?_, ?_, ?_, ?_⟩ <;>
      simp [bootstrapAccountantPromiseSettler, h, pingpong.NewAccountantPromiseSettler,
        AccountantPromiseSettler.Subscribe, World.alloc, World.log, World.callsSince]

/-- Witness for C10: the sample provider node, whose `Subscribe()` fails, and the same node
in consumer-only mode. -/
theorem bootstrapAccountantPromiseSettler_modes_witness :
    bootstrapAccountantPromiseSettler samplePkg sampleDi sampleConsumerOptions
          sampleFailingWorld =
        (({ sampleDi with AccountantPromiseSettler := some .noop }, none),
          sampleFailingWorld) ∧
      (bootstrapAccountantPromiseSettler samplePkg sampleDi sampleNodeOptions
          sampleFailingWorld).1.2 = some "subscribe failed" ∧
      World.callsSince (bootstrapAccountantPromiseSettler samplePkg sampleDi
          sampleNodeOptions sampleFailingWorld).2 sampleFailingWorld =
        [.NewAccountantPromiseSettler 20, .Subscribe 20] :=
  ⟨(bootstrapAccountantPromiseSettler_modes samplePkg sampleDi sampleConsumerOptions
      sampleFailingWorld).1 rfl,
    ((bootstrapAccountantPromiseSettler_modes samplePkg sampleDi sampleNodeOptions
        sampleFailingWorld).2 rfl).elim fun _ h => h.2.2.2.1,
    ((bootstrapAccountantPromiseSettler_modes samplePkg sampleDi sampleNodeOptions
        sampleFailingWorld).2 rfl).elim fun s h => by
      have hs : s.ref = 20 := by rw [h.1]; rfl
      rw [← hs]; exact h.2.2.2.2⟩

end Cmd

namespace Cmd

/-- The WireGuard factory when location detection fails. -/
theorem wireguardFactory_location_error (pkg : Pkg) (di : Dependencies)
    (opts : ServiceOptions) (w : World) (e : Error) (hloc : w.location = .error e) :
    wireguardFactory pkg di opts w =
      (.ret none ServiceProposal.zero (some e),
        { w with calls := w.calls ++ [.DetectLocation di.LocationResolver] }) := by
  simp [wireguardFactory, LocationResolver.DetectLocation, hloc, World.log]

/-- The WireGuard factory panics, after the detection, on options of another type and on a
range that is specified and nil. -/
theorem wireguardFactory_panic (pkg : Pkg) (di : Dependencies) (opts : ServiceOptions)
    (w : World) (loc : Location) (hloc : w.location = .ok loc)
    (hopts : ∀ o, opts = .wireguard o → pkg.IsSpecified o.Ports = true ∧ o.Ports = none) :
    wireguardFactory pkg di opts w =
      (.panic, { w with calls := w.calls ++ [.DetectLocation di.LocationResolver] }) := by
  cases opts with
  | wireguard o =>
    obtain ⟨hspec, hports⟩ := hopts o rfl
    rw [hports] at hspec
    simp [wireguardFactory, LocationResolver.DetectLocation, hloc, World.log, hspec, hports]
  | openvpn o => simp [wireguardFactory, LocationResolver.DetectLocation, hloc, World.log]
  | other t => simp [wireguardFactory, LocationResolver.DetectLocation, hloc, World.log]

/-- The noop factory when location detection fails. -/
theorem noopFactory_location_error (pkg : Pkg) (di : Dependencies)
    (opts : ServiceOptions) (w : World) (e : Error) (hloc : w.location = .error e) :
    noopFactory pkg di opts w =
      (.ret none ServiceProposal.zero (some e),
        { w with calls := w.calls ++ [.DetectLocation di.LocationResolver] }) := by
  simp [noopFactory, LocationResolver.DetectLocation, hloc, World.log]

/-- The noop factory when the location is detected. -/
theorem noopFactory_ok (pkg : Pkg) (di : Dependencies)
    (opts : ServiceOptions) (w : World) (loc : Location) (hloc : w.location = .ok loc) :
    noopFactory pkg di opts w =
      (.ret (some (.noop w.nextRef)) (pkg.noopGetProposal loc) none,
        { w with
          nextRef := w.nextRef + 1,
          calls := w.calls ++ [.DetectLocation di.LocationResolver,
            .NewManager service_noop.ServiceType w.nextRef] }) := by
  simp [noopFactory, LocationResolver.DetectLocation, hloc, World.log, World.alloc,
    service_noop.NewManager]

/-- The OpenVPN factory when `Check()` fails. -/
theorem openvpnFactory_check_error (pkg : Pkg) (nodeOptions : NodeOptions)
    (di : Dependencies) (opts : ServiceOptions) (w : World) (e : Error)
    (hcheck : nodeOptions.Openvpn.checkResult = some e) :
    openvpnFactory pkg nodeOptions di opts w =
      (.ret none ServiceProposal.zero (some e),
        { w with calls := w.calls ++ [.OpenvpnCheck] }) := by
  simp [openvpnFactory, OptionsOpenvpn.Check, hcheck, World.log]

/-- The OpenVPN factory when `Check()` passes and location detection fails. -/
theorem openvpnFactory_location_error (pkg : Pkg) (nodeOptions : NodeOptions)
    (di : Dependencies) (opts : ServiceOptions) (w : World) (e : Error)
    (hcheck : nodeOptions.Openvpn.checkResult = none) (hloc : w.location = .error e) :
    openvpnFactory pkg nodeOptions di opts w =
      (.ret none ServiceProposal.zero (some e),
        { w with calls := w.calls ++ [.OpenvpnCheck, .DetectLocation di.LocationResolver] })
      := by
  simp [openvpnFactory, OptionsOpenvpn.Check, LocationResolver.DetectLocation, hcheck, hloc,
    World.log]

/-- The OpenVPN factory panics, after check and detection, on options of another type. -/
theorem openvpnFactory_panic (pkg : Pkg) (nodeOptions : NodeOptions)
    (di : Dependencies) (opts : ServiceOptions) (w : World) (loc : Location)
    (hcheck : nodeOptions.Openvpn.checkResult = none) (hloc : w.location = .ok loc)
    (hopts : ∀ o, opts ≠ .openvpn o) :
    openvpnFactory pkg nodeOptions di opts w =
      (.panic,
        { w with calls := w.calls ++ [.OpenvpnCheck, .DetectLocation di.LocationResolver] })
      := by
  cases opts with
  | openvpn o => exact absurd rfl (hopts o)
  | wireguard o =>
    simp [openvpnFactory, OptionsOpenvpn.Check, LocationResolver.DetectLocation, hcheck,
      hloc, World.log]
  | other t =>
    simp [openvpnFactory, OptionsOpenvpn.Check, LocationResolver.DetectLocation, hcheck,
      hloc, World.log]

/-- The calls logged since a world, for a later world that only extends its log. -/
theorem callsSince_append_calls (w : World) (cs : List ExtCall) :
    World.callsSince { w with calls := w.calls ++ cs } w = cs := by
  simp [World.callsSince]

/-- Every invocation of the WireGuard factory calls `DetectLocation()` exactly once and
returns no error when the detection succeeds. -/
theorem wireguardFactory_detect_once (pkg : Pkg) (di : Dependencies)
    (opts : ServiceOptions) (w : World) :
    (World.callsSince (wireguardFactory pkg di opts w).2 w).filter
        ExtCall.isDetectLocation = [.DetectLocation di.LocationResolver] ∧
      (∀ loc, w.location = .ok loc → (wireguardFactory pkg di opts w).1.err = none) := by
  cases hloc : w.location with
  | error e =>
    rw [wireguardFactory_location_error pkg di opts w e hloc, callsSince_append_calls]
    simp [ExtCall.isDetectLocation]
  | ok loc =>
    by_cases hp : ∀ o, opts = .wireguard o → pkg.IsSpecified o.Ports = true ∧ o.Ports = none
    · rw [wireguardFactory_panic pkg di opts w loc hloc hp, callsSince_append_calls]
      simp [ExtCall.isDetectLocation, FactoryResult.err]
    · push_neg at hp
      obtain ⟨o, rfl, ho⟩ := hp
      cases hspec : pkg.IsSpecified o.Ports with
      | false =>
        rw [wireguardFactory_dynamic pkg di o w loc hloc hspec, callsSince_append]
        simp [ExtCall.isDetectLocation, FactoryResult.err]
      | true =>
        cases hports : o.Ports with
        | none => exact absurd hports (ho hspec)
        | some rg =>
          rw [wireguardFactory_fixed pkg di o w loc rg hloc hspec hports, callsSince_append]
          simp [ExtCall.isDetectLocation, FactoryResult.err]

/-- Every invocation of the noop factory calls `DetectLocation()` exactly once and returns
no error when the detection succeeds. -/
theorem noopFactory_detect_once (pkg : Pkg) (di : Dependencies)
    (opts : ServiceOptions) (w : World) :
    (World.callsSince (noopFactory pkg di opts w).2 w).filter
        ExtCall.isDetectLocation = [.DetectLocation di.LocationResolver] ∧
      (∀ loc, w.location = .ok loc → (noopFactory pkg di opts w).1.err = none) := by
  cases hloc : w.location with
  | error e =>
    rw [noopFactory_location_error pkg di opts w e hloc, callsSince_append_calls]
    simp [ExtCall.isDetectLocation]
  | ok loc =>
    rw [noopFactory_ok pkg di opts w loc hloc, callsSince_append]
    simp [ExtCall.isDetectLocation, FactoryResult.err]

/-- An invocation of the OpenVPN factory whose `Check()` passes calls `DetectLocation()`
exactly once and returns no error when the detection succeeds. -/
theorem openvpnFactory_detect_once (pkg : Pkg) (nodeOptions : NodeOptions)
    (di : Dependencies) (opts : ServiceOptions) (w : World)
    (hcheck : nodeOptions.Openvpn.checkResult = none) :
    (World.callsSince (openvpnFactory pkg nodeOptions di opts w).2 w).filter
        ExtCall.isDetectLocation = [.DetectLocation di.LocationResolver] ∧
      (∀ loc, w.location = .ok loc →
        (openvpnFactory pkg nodeOptions di opts w).1.err = none) := by
  cases hloc : w.location with
  | error e =>
    rw [openvpnFactory_location_error pkg nodeOptions di opts w e hcheck hloc,
      callsSince_append_calls]
    simp [ExtCall.isDetectLocation]
  | ok loc =>
    by_cases hp : ∀ o, opts ≠ .openvpn o
    · rw [openvpnFactory_panic pkg nodeOptions di opts w loc hcheck hloc hp,
        callsSince_append_calls]
      simp [ExtCall.isDetectLocation, FactoryResult.err]
    · push_neg at hp
      obtain ⟨o, rfl⟩ := hp
      by_cases hport : o.Port = 0
      · rw [openvpnFactory_dynamic pkg nodeOptions di o w loc hcheck hloc hport,
          callsSince_append]
        simp [ExtCall.isDetectLocation, FactoryResult.err]
      · rw [openvpnFactory_fixed pkg nodeOptions di o w loc hcheck hloc hport,
          callsSince_append]
        simp [ExtCall.isDetectLocation, FactoryResult.err]

/-- A service built by the WireGuard factory carries the country, and its proposal is built
from the location, detected in that invocation. -/
theorem wireguardFactory_built_from_location (pkg : Pkg) (di : Dependencies)
    (o : WireguardOptions) (w : World) (loc : Location) (svc : Service)
    (hloc : w.location = .ok loc)
    (hsvc : (wireguardFactory pkg di (.wireguard o) w).1.service = some svc) :
    (wireguardFactory pkg di (.wireguard o) w).1.proposal =
        some (pkg.wireguardGetProposal loc) ∧
      svc.country = some loc.Country := by
  obtain ⟨-, o', ho', hrg⟩ := wireguardFactory_service pkg di _ w svc hsvc
  obtain rfl : o = o' := by simpa using ho'
  cases hspec : pkg.IsSpecified o.Ports with
  | false =>
    rw [wireguardFactory_dynamic pkg di o w loc hloc hspec] at hsvc ⊢
    simp only [FactoryResult.service, Option.some.injEq] at hsvc
    subst hsvc
    exact ⟨rfl, rfl⟩
  | true =>
    obtain ⟨rg, hports⟩ := hrg hspec
    rw [wireguardFactory_fixed pkg di o w loc rg hloc hspec hports] at hsvc ⊢
    simp only [FactoryResult.service, Option.some.injEq] at hsvc
    subst hsvc
    exact ⟨rfl, rfl⟩

/-- A service built by the OpenVPN factory carries the country, and its proposal is built
from the location, detected in that invocation. -/
theorem openvpnFactory_built_from_location (pkg : Pkg) (nodeOptions : NodeOptions)
    (di : Dependencies) (o : OpenvpnOptions) (w : World) (loc : Location) (svc : Service)
    (hloc : w.location = .ok loc)
    (hsvc : (openvpnFactory pkg nodeOptions di (.openvpn o) w).1.service = some svc) :
    (openvpnFactory pkg nodeOptions di (.openvpn o) w).1.proposal =
        some (pkg.NewServiceProposalWithLocation loc o.Protocol) ∧
      svc.country = some loc.Country := by
  obtain ⟨hcheck, -, -⟩ := openvpnFactory_service pkg nodeOptions di _ w svc hsvc
  by_cases hport : o.Port = 0
  · rw [openvpnFactory_dynamic pkg nodeOptions di o w loc hcheck hloc hport] at hsvc ⊢
    simp only [FactoryResult.service, Option.some.injEq] at hsvc
    subst hsvc
    exact ⟨rfl, rfl⟩
  · rw [openvpnFactory_fixed pkg nodeOptions di o w loc hcheck hloc hport] at hsvc ⊢
    simp only [FactoryResult.service, Option.some.injEq] at hsvc
    subst hsvc
    exact ⟨rfl, rfl⟩

/-- Registration stores the factory under its type tag and logs the one call. -/
theorem Register_factory (reg : Registry) (t : String) (f : ServiceFactory) (w : World) :
    (reg.Register t f w).1.factory t = some f ∧
      World.callsSince (reg.Register t f w).2 w = [.Register t] ∧
      (reg.Register t f w).2.location = w.location := by
  simp [Registry.Register, Registry.factory, World.log, World.callsSince]

end Cmd

namespace Cmd

/-- C11, counterexample. The OpenVPN factory registered with node options whose
`Openvpn.Check()` fails is looked up in the registry and invoked: the invocation returns
the error of the check and makes no call of `DetectLocation()`. -/
theorem openvpn_failed_check_detects_no_location :
    ∃ f, (bootstrapServiceOpenvpn samplePkg { factories := [] } sampleBrokenOptions
          sampleWorld).1.factory service_openvpn.ServiceType = some f ∧
      (f sampleDi (.openvpn ⟨"udp", 0⟩) sampleWorld).1 =
        .ret none ServiceProposal.zero (some "openvpn binary not found") ∧
      (World.callsSince (f sampleDi (.openvpn ⟨"udp", 0⟩) sampleWorld).2
        sampleWorld).filter ExtCall.isDetectLocation = [] :=
  ⟨openvpnFactory samplePkg sampleBrokenOptions, rfl, rfl, by decide⟩

/-- C11, amended. Registering the OpenVPN, WireGuard and noop factories logs the one call
`Register` and no location detection, and the registry then holds the factory under its type
tag.  Each invocation of the WireGuard or noop factory, and each invocation of the OpenVPN
factory whose `Openvpn.Check()` passes, calls `DetectLocation()` exactly once, at call time;
an OpenVPN invocation whose check fails calls it not at all.  The proposal a factory returns
with a service, and the country of the service manager, are built from the location
detected in that same invocation: of two invocations separated by a location change, the
first returns the proposal of the first location and the second the proposal of the
second. -/
theorem factories_detect_location_at_call_time (pkg : Pkg) (nodeOptions : NodeOptions)
    (di : Dependencies) (w : World) :
    (∀ reg : Registry,
        ((bootstrapServiceOpenvpn pkg reg nodeOptions w).1.factory service_openvpn.ServiceType =
            some (openvpnFactory pkg nodeOptions) ∧
          World.callsSince (bootstrapServiceOpenvpn pkg reg nodeOptions w).2 w =
            [.Register service_openvpn.ServiceType]) ∧
        ((bootstrapServiceWireguard pkg reg nodeOptions w).1.factory wireguard.ServiceType =
            some (wireguardFactory pkg) ∧
          World.callsSince (bootstrapServiceWireguard pkg reg nodeOptions w).2 w =
            [.Register wireguard.ServiceType]) ∧
        ((bootstrapServiceNoop pkg reg nodeOptions w).1.factory service_noop.ServiceType =
            some (noopFactory pkg) ∧
          World.callsSince (bootstrapServiceNoop pkg reg nodeOptions w).2 w =
            [.Register service_noop.ServiceType])) ∧
      (∀ opts : ServiceOptions,
        (World.callsSince (wireguardFactory pkg di opts w).2 w).filter
            ExtCall.isDetectLocation = [.DetectLocation di.LocationResolver] ∧
          (World.callsSince (noopFactory pkg di opts w).2 w).filter
            ExtCall.isDetectLocation = [.DetectLocation di.LocationResolver] ∧
          (nodeOptions.Openvpn.checkResult = none →
            (World.callsSince (openvpnFactory pkg nodeOptions di opts w).2 w).filter
              ExtCall.isDetectLocation = [.DetectLocation di.LocationResolver]) ∧
          (nodeOptions.Openvpn.checkResult ≠ none →
            (World.callsSince (openvpnFactory pkg nodeOptions di opts w).2 w).filter
              ExtCall.isDetectLocation = [])) ∧
      (∀ loc : Location, w.location = .ok loc →
        (∀ o svc, (wireguardFactory pkg di (.wireguard o) w).1.service = some svc →
          (wireguardFactory pkg di (.wireguard o) w).1.proposal =
              some (pkg.wireguardGetProposal loc) ∧
            svc.country = some loc.Country) ∧
        (∀ o svc, (openvpnFactory pkg nodeOptions di (.openvpn o) w).1.service = some svc →
          (openvpnFactory pkg nodeOptions di (.openvpn o) w).1.proposal =
              some (pkg.NewServiceProposalWithLocation loc o.Protocol) ∧
            svc.country = some loc.Country) ∧
        (∀ opts, (noopFactory pkg di opts w).1.proposal = some (pkg.noopGetProposal loc))) ∧
      (∀ loc1 loc2 : Location, w.location = .ok loc1 →
        (∀ o svc1 svc2,
          (wireguardFactory pkg di (.wireguard o) w).1.service = some svc1 →
          (wireguardFactory pkg di (.wireguard o)
            ((wireguardFactory pkg di (.wireguard o) w).2.setLocation (.ok loc2))).1.service =
              some svc2 →
          (wireguardFactory pkg di (.wireguard o) w).1.proposal =
              some (pkg.wireguardGetProposal loc1) ∧
            (wireguardFactory pkg di (.wireguard o)
              ((wireguardFactory pkg di (.wireguard o) w).2.setLocation (.ok loc2))).1.proposal =
              some (pkg.wireguardGetProposal loc2) ∧
            svc1.country = some loc1.Country ∧ svc2.country = some loc2.Country) ∧
        (∀ o svc1 svc2,
          (openvpnFactory pkg nodeOptions di (.openvpn o) w).1.service = some svc1 →
          (openvpnFactory pkg nodeOptions di (.openvpn o)
            ((openvpnFactory pkg nodeOptions di (.openvpn o) w).2.setLocation
              (.ok loc2))).1.service = some svc2 →
          (openvpnFactory pkg nodeOptions di (.openvpn o) w).1.proposal =
              some (pkg.NewServiceProposalWithLocation loc1 o.Protocol) ∧
            (openvpnFactory pkg nodeOptions di (.openvpn o)
              ((openvpnFactory pkg nodeOptions di (.openvpn o) w).2.setLocation
                (.ok loc2))).1.proposal =
              some (pkg.NewServiceProposalWithLocation loc2 o.Protocol) ∧
            svc1.country = some loc1.Country ∧ svc2.country = some loc2.Country) ∧
        (∀ opts,
          (noopFactory pkg di opts w).1.proposal = some (pkg.noopGetProposal loc1) ∧
            (noopFactory pkg di opts
              ((noopFactory pkg di opts w).2.setLocation (.ok loc2))).1.proposal =
              some (pkg.noopGetProposal loc2))) := by
  refine ⟨fun reg => ⟨?_, ?_, ?_⟩, fun opts => ⟨?_, ?_, ?_, ?_⟩,
    fun loc hloc => ⟨?_, ?_, ?_⟩, fun loc1 loc2 hloc => ⟨?_, ?_, ?_⟩⟩
  · exact ⟨(Register_factory reg _ _ w).1, (Register_factory reg _ _ w).2.1⟩
  · exact ⟨(Register_factory reg _ _ w).1, (Register_factory reg _ _ w).2.1⟩
  · exact ⟨(Register_factory reg _ _ w).1, (Register_factory reg _ _ w).2.1⟩
  · exact (wireguardFactory_detect_once pkg di opts w).1
  · exact (noopFactory_detect_once pkg di opts w).1
  · exact fun hcheck => (openvpnFactory_detect_once pkg nodeOptions di opts w hcheck).1
  · intro hcheck
    obtain ⟨e, he⟩ := Option.ne_none_iff_exists'.mp hcheck
    rw [openvpnFactory_check_error pkg nodeOptions di opts w e he, callsSince_append_calls]
    simp [ExtCall.isDetectLocation]
  · exact fun o svc hsvc => wireguardFactory_built_from_location pkg di o w loc svc hloc hsvc
  · exact fun o svc hsvc =>
      openvpnFactory_built_from_location pkg nodeOptions di o w loc svc hloc hsvc
  · intro opts
    rw [noopFactory_ok pkg di opts w loc hloc]
    rfl
  · intro o svc1 svc2 h1 h2
    obtain ⟨p1, c1⟩ := wireguardFactory_built_from_location pkg di o w loc1 svc1 hloc h1
    obtain ⟨p2, c2⟩ := wireguardFactory_built_from_location pkg di o _ loc2 svc2 rfl h2
    exact ⟨p1, p2, c1, c2⟩
  · intro o svc1 svc2 h1 h2
    obtain ⟨p1, c1⟩ :=
      openvpnFactory_built_from_location pkg nodeOptions di o w loc1 svc1 hloc h1
    obtain ⟨p2, c2⟩ :=
      openvpnFactory_built_from_location pkg nodeOptions di o _ loc2 svc2 rfl h2
    exact ⟨p1, p2, c1, c2⟩
  · intro opts
    constructor
    · rw [noopFactory_ok pkg di opts w loc1 hloc]; rfl
    · rw [noopFactory_ok pkg di opts _ loc2 rfl]; rfl

/-- Witness for C11, amended: after the three registrations on the sample node, the
registered WireGuard factory is invoked in Lithuania and, after the node has moved, in
Germany; the two proposals carry the two locations. -/
theorem factories_detect_location_at_call_time_witness :
    sampleRegistered.1.factory wireguard.ServiceType = some (wireguardFactory samplePkg) ∧
      (wireguardFactory samplePkg sampleDi (.wireguard ⟨none, ""⟩)
          sampleRegistered.2).1.proposal =
        some { ServiceType := "wireguard",
               ServiceDefinition := some ⟨⟨"LT", "Vilnius"⟩, ""⟩ } ∧
      (wireguardFactory samplePkg sampleDi (.wireguard ⟨none, ""⟩)
          ((wireguardFactory samplePkg sampleDi (.wireguard ⟨none, ""⟩)
            sampleRegistered.2).2.setLocation (.ok sampleLocationDE))).1.proposal =
        some { ServiceType := "wireguard",
               ServiceDefinition := some ⟨⟨"DE", "Berlin"⟩, ""⟩ } :=
  have h := (factories_detect_location_at_call_time samplePkg sampleNodeOptions sampleDi
    sampleRegistered.2).2.2.2 ⟨"LT", "Vilnius"⟩ sampleLocationDE rfl
  have hw := h.1 ⟨none, ""⟩ _ _ rfl rfl
  ⟨(factories_detect_location_at_call_time samplePkg sampleNodeOptions sampleDi
      (bootstrapServiceNoop samplePkg
        (bootstrapServiceOpenvpn samplePkg { factories := [] } sampleNodeOptions
          sampleWorld).1 sampleNodeOptions
        (bootstrapServiceOpenvpn samplePkg { factories := [] } sampleNodeOptions
          sampleWorld).2).2).1 _ |>.2.1.1,
    hw.1, hw.2.1⟩

/-- C13. Each factory returns an error exactly when one of its checks fails: location
detection for the WireGuard and noop factories; `nodeOptions.Openvpn.Check()`, or location
detection after a passed check, for the OpenVPN factory.  It then returns a nil service,
the empty `ServiceProposal` and the error of the failed check, and has made no call but
that check (and, for OpenVPN, the passed `Check()` before a failed detection): no service
manager is constructed, and after a failed `Check()` `DetectLocation()` is not called. -/
theorem factory_error_iff_check_fails (pkg : Pkg) (nodeOptions : NodeOptions)
    (di : Dependencies) (opts : ServiceOptions) (w : World) :
    (((wireguardFactory pkg di opts w).1.err ≠ none ↔ ∃ e, w.location = .error e) ∧
        (∀ e, w.location = .error e →
          (wireguardFactory pkg di opts w).1 = .ret none ServiceProposal.zero (some e) ∧
            World.callsSince (wireguardFactory pkg di opts w).2 w =
              [.DetectLocation di.LocationResolver])) ∧
      (((noopFactory pkg di opts w).1.err ≠ none ↔ ∃ e, w.location = .error e) ∧
        (∀ e, w.location = .error e →
          (noopFactory pkg di opts w).1 = .ret none ServiceProposal.zero (some e) ∧
            World.callsSince (noopFactory pkg di opts w).2 w =
              [.DetectLocation di.LocationResolver])) ∧
      (((openvpnFactory pkg nodeOptions di opts w).1.err ≠ none ↔
          (nodeOptions.Openvpn.checkResult ≠ none ∨ ∃ e, w.location = .error e)) ∧
        (∀ e, nodeOptions.Openvpn.checkResult = some e →
          (openvpnFactory pkg nodeOptions di opts w).1 =
              .ret none ServiceProposal.zero (some e) ∧
            World.callsSince (openvpnFactory pkg nodeOptions di opts w).2 w =
              [.OpenvpnCheck]) ∧
        (nodeOptions.Openvpn.checkResult = none → ∀ e, w.location = .error e →
          (openvpnFactory pkg nodeOptions di opts w).1 =
              .ret none ServiceProposal.zero (some e) ∧
            World.callsSince (openvpnFactory pkg nodeOptions di opts w).2 w =
              [.OpenvpnCheck, .DetectLocation di.LocationResolver])) := by
  refine ⟨⟨?_, ?_⟩, ⟨?_, ?_⟩, ⟨?_, ?_, ?_⟩⟩
  · cases hloc : w.location with
    | error e =>
      rw [wireguardFactory_location_error pkg di opts w e hloc]
      simp [FactoryResult.err]
    | ok loc =>
      rw [(wireguardFactory_detect_once pkg di opts w).2 loc hloc]
      simp
  · intro e hloc
    rw [wireguardFactory_location_error pkg di opts w e hloc, callsSince_append_calls]
    exact ⟨rfl, rfl⟩
  · cases hloc : w.location with
    | error e =>
      rw [noopFactory_location_error pkg di opts w e hloc]
      simp [FactoryResult.err]
    | ok loc =>
      rw [(noopFactory_detect_once pkg di opts w).2 loc hloc]
      simp
  · intro e hloc
    rw [noopFactory_location_error pkg di opts w e hloc, callsSince_append_calls]
    exact ⟨rfl, rfl⟩
  · cases hcheck : nodeOptions.Openvpn.checkResult with
    | some e0 =>
      rw [openvpnFactory_check_error pkg nodeOptions di opts w e0 hcheck]
      simp [FactoryResult.err]
    | none =>
      cases hloc : w.location with
      | error e =>
        rw [openvpnFactory_location_error pkg nodeOptions di opts w e hcheck hloc]
        simp [FactoryResult.err]
      | ok loc =>
        rw [(openvpnFactory_detect_once pkg nodeOptions di opts w hcheck).2 loc hloc]
        simp
  · intro e hcheck
    rw [openvpnFactory_check_error pkg nodeOptions di opts w e hcheck,
      callsSince_append_calls]
    exact ⟨rfl, rfl⟩
  · intro hcheck e hloc
    rw [openvpnFactory_location_error pkg nodeOptions di opts w e hcheck hloc,
      callsSince_append_calls]
    exact ⟨rfl, rfl⟩

/-- Witness for C13: on the sample node, an OpenVPN invocation with a failing check, and a
WireGuard invocation in a world where the location cannot be detected. -/
theorem factory_error_iff_check_fails_witness :
    ((openvpnFactory samplePkg sampleBrokenOptions sampleDi (.openvpn ⟨"udp", 0⟩)
          sampleWorld).1 =
        .ret none ServiceProposal.zero (some "openvpn binary not found") ∧
      World.callsSince (openvpnFactory samplePkg sampleBrokenOptions sampleDi
          (.openvpn ⟨"udp", 0⟩) sampleWorld).2 sampleWorld = [.OpenvpnCheck]) ∧
      ((wireguardFactory samplePkg sampleDi (.wireguard ⟨none, ""⟩)
          (sampleWorld.setLocation (.error "no location"))).1 =
        .ret none ServiceProposal.zero (some "no location") ∧
      World.callsSince (wireguardFactory samplePkg sampleDi (.wireguard ⟨none, ""⟩)
          (sampleWorld.setLocation (.error "no location"))).2
          (sampleWorld.setLocation (.error "no location")) = [.DetectLocation 1]) :=
  ⟨(factory_error_iff_check_fails samplePkg sampleBrokenOptions sampleDi
      (.openvpn ⟨"udp", 0⟩) sampleWorld).2.2.2.1 "openvpn binary not found" rfl,
    (factory_error_iff_check_fails samplePkg sampleNodeOptions sampleDi
      (.wireguard ⟨none, ""⟩) (sampleWorld.setLocation (.error "no location"))).1.2
      "no location" rfl⟩

end Cmd

namespace AuthValidator

variable {M : Type}

/-- C12, counterexample. Two logins for which the lookup returns `found = false` and which
`Validate` authenticates: a first login for a stored session, signed by its consumer; and a
login for a session the map does not hold, where the lookup yields a session without
consumer and the extractor yields the empty identity. -/
theorem first_touch_login_is_authenticated :
    ((specClientMap.FindClientSession sampleMap 7 "s1").2 = (false, none) ∧
        (sampleValidator.Validate sampleImports sampleMap 7 "s1" "c").ok = true ∧
        (sampleValidator.Validate sampleImports sampleMap 7 "s1" "c").err = none) ∧
      ((specClientMap.FindClientSession sampleEmptyMap 7 "s1").2 = (false, none) ∧
        ((NewValidator specClientMap sampleEmptyExtractor).Validate sampleImports
          sampleEmptyMap 7 "s1" "zz").ok = true ∧
        ((NewValidator specClientMap sampleEmptyExtractor).Validate sampleImports
          sampleEmptyMap 7 "s1" "zz").err = none) := by
  decide

/-- C12, amended. On every input on which `FindClientSession` returns `found = false`
without error, `Validate` returns `ok = true` exactly when the extractor succeeds with the
`ConsumerID` of the session value the lookup returned: the `found` flag does not enter the
comparison, and an empty identity is compared like any other.  When the lookup returns an
error, `Validate` returns `ok = false`. -/
theorem Validate_first_touch_ok_iff (im : Imports) (v : Validator M) (m : M)
    (clientID : Int) (s sig : String) :
    (∀ cur, v.clientMap.FindClientSession m clientID s = (cur, false, none) →
        ((v.Validate im m clientID s sig).ok = true ↔
          v.identityExtractor.Extract (bytesOf (im.AuthSignaturePrefix ++ s))
            (im.SignatureBase64 sig) = .ok cur.ConsumerID)) ∧
      (∀ cur found e, v.clientMap.FindClientSession m clientID s = (cur, found, some e) →
        (v.Validate im m clientID s sig).ok = false) := by
  constructor
  · intro cur hfind
    cases hext : v.identityExtractor.Extract (bytesOf (im.AuthSignaturePrefix ++ s))
        (im.SignatureBase64 sig) with
    | error e =>
      rw [Validate_eq_of_extract_error im v m clientID s sig cur false e hfind hext]
      simp
    | ok idn =>
      rw [Validate_eq_of_extract_ok im v m clientID s sig cur false idn hfind hext]
      simp [eq_comm]
  · intro cur found e hfind
    rw [Validate_eq_of_lookup_error im v m clientID s sig cur found e hfind]

/-- Witness for C12, amended: a first login for a stored session, signed by another
identity, is not authenticated. -/
theorem Validate_first_touch_ok_iff_witness :
    (sampleValidator.Validate sampleImports sampleMap 7 "s1" "x").ok = true ↔
      sampleExtractor.Extract (bytesOf ("MystVpnSessionId:" ++ "s1")) ⟨bytesOf "x"⟩ =
        .ok ⟨"0xconsumer"⟩ :=
  (Validate_first_touch_ok_iff sampleImports sampleValidator sampleMap 7 "s1" "x").1
    ⟨"s1", ⟨"0xconsumer"⟩⟩ (by decide)

end AuthValidator
